import Mathlib

/-!
A shallow embedding of the oxidegb Game Boy emulator core (the `gameboy/`
module tree of the repository) together with theorems checking the
natural-language specification against it.

Conventions of the embedding:

* Rust machine integers (`u8`, `u16`, `u32`, `u64`) are modelled as `Nat`
  with explicit truncation (`% 2^w`, written through the helpers `u8!`-like
  functions below) exactly where the Rust code wraps (`wrapping_add`,
  `as u8`, release-mode overflow); signed casts go through `Int`.
* Rust arrays and `Vec`s are modelled as `List Nat`. Out-of-range indexing,
  which panics in Rust, is modelled by `List.getD` (reads) and `List.set`
  (writes, a no-op out of range); theorems that depend on an access keep
  the index in bounds through hypotheses.
* Structs become structures, enums become inductives, `&mut self` methods
  become state-passing functions returning the updated structure (paired
  with the Rust return value where there is one).
* Fallible constructors (`Cartridge::new`, `Header::parse`) return
  `Except Error _`; parse failures inside infallible-by-construction
  helpers are `Option`.
-/

set_option maxRecDepth 4096

namespace Oxidegb

/-- Truncation to 8 bits, mirroring Rust `as u8` / wrapping `u8` arithmetic. -/
def u8 (n : Nat) : Nat := n % 256

/-- Truncation to 16 bits, mirroring Rust `as u16` / wrapping `u16` arithmetic. -/
def u16 (n : Nat) : Nat := n % 65536

/-- Rust `as i8`: reinterpret the low byte as a signed value. -/
def i8 (n : Nat) : Int := if n % 256 < 128 then (n % 256 : Int) else (n % 256 : Int) - 256

/-- Truncation of a (possibly negative) integer to 16 bits, two's complement. -/
def u16i (z : Int) : Nat := (z % 65536).toNat

/-- Rust `bool as u8`. -/
def b2n (b : Bool) : Nat := if b then 1 else 0

/-! ## `gameboy/cpu/registers.rs` — flags and registers -/

/-- The `FlagOp` enum of `registers.rs` (carry vs borrow flavour of an update). -/
inductive FlagOp where
  | Carry
  | Borrow
deriving Repr, DecidableEq

/-- The bit of flag Z in the F register (`Flag::Z`). -/
def flagZ : Nat := 0x80
/-- The bit of flag N in the F register (`Flag::N`). -/
def flagN : Nat := 0x40
/-- The bit of flag H in the F register (`Flag::H`). -/
def flagH : Nat := 0x20
/-- The bit of flag C in the F register (`Flag::C`). -/
def flagC : Nat := 0x10

/-- `Flags` of `registers.rs`: a `FlagSet<Flag>` holding the F register.
The underlying `u8` can only carry the four defined flag bits 7..4. -/
structure Flags where
  bits : Nat
deriving Repr, DecidableEq

namespace Flags

/-- `FlagSet::new_truncated`: keep only the defined flag bits `Z|N|H|C = 0xF0`
(`Flags::set_value`). -/
def setValue (_f : Flags) (value : Nat) : Flags := ⟨value &&& 0xF0⟩

/-- `Flags::value`: the raw bits of the flag set. -/
def value (f : Flags) : Nat := f.bits

/-- `Flags::is_set` (`FlagSet::contains` for a single flag). -/
def isSet (f : Flags) (flag : Nat) : Bool := f.bits &&& flag != 0

/-- `Flags::set`: insert or remove one flag bit. -/
def set (f : Flags) (flag : Nat) (b : Bool) : Flags :=
  if b then ⟨f.bits ||| flag⟩ else ⟨f.bits &&& (flag ^^^ 0xFF)⟩

/-- `Flags::clear`: `FlagSet::new_truncated(0)`. -/
def clear (_f : Flags) : Flags := ⟨0⟩

def zero (f : Flags) : Bool := f.isSet flagZ
def negative (f : Flags) : Bool := f.isSet flagN
def halfCarry (f : Flags) : Bool := f.isSet flagH
def carry (f : Flags) : Bool := f.isSet flagC

def setNegative (f : Flags) (b : Bool) : Flags := f.set flagN b
def setHalfCarry (f : Flags) (b : Bool) : Flags := f.set flagH b
def setCarry (f : Flags) (b : Bool) : Flags := f.set flagC b

/-- `Flags::update_zero`. -/
def updateZero (f : Flags) (v : Nat) : Flags := f.set flagZ (v == 0)

/-- `Flags::update_carry_u8`. -/
def updateCarryU8 (f : Flags) (lhs rhs : Nat) (withCarry : Bool) (op : FlagOp) : Flags :=
  let c := b2n (withCarry && f.carry)
  let s := match op with
    | .Carry => lhs + rhs + c > 0xFF
    | .Borrow => lhs < rhs + c
  f.set flagC s

/-- `Flags::update_carry_u16`. -/
def updateCarryU16 (f : Flags) (lhs rhs : Nat) (op : FlagOp) : Flags :=
  let s := match op with
    | .Carry => lhs + rhs > 0xFFFF
    | .Borrow => lhs < rhs
  f.set flagC s

/-- `Flags::update_half_carry_u8`. -/
def updateHalfCarryU8 (f : Flags) (lhs rhs : Nat) (withCarry : Bool) (op : FlagOp) : Flags :=
  let c := b2n (withCarry && f.carry)
  let s := match op with
    | .Carry => (lhs &&& 0xF) + (rhs &&& 0xF) + c > 0xF
    | .Borrow => (lhs &&& 0xF) < (rhs &&& 0xF) + c
  f.set flagH s

/-- `Flags::update_half_carry_u16`. -/
def updateHalfCarryU16 (f : Flags) (lhs rhs : Nat) (op : FlagOp) : Flags :=
  let s := match op with
    | .Carry => (lhs &&& 0xFFF) + (rhs &&& 0xFFF) > 0xFFF
    | .Borrow => (lhs &&& 0xFFF) < (rhs &&& 0xFFF)
  f.set flagH s

end Flags

/-- `Registers` of `registers.rs`. -/
structure Registers where
  b : Nat
  c : Nat
  d : Nat
  e : Nat
  h : Nat
  l : Nat
  flags : Flags
  a : Nat
  sp : Nat
  pc : Nat
  ime : Bool
deriving Repr, DecidableEq

namespace Registers

/-- `Registers::new` (the `Default` derive: everything zero / false). -/
def new : Registers :=
  ⟨0, 0, 0, 0, 0, 0, ⟨0⟩, 0, 0, 0, false⟩

/-- `Registers::new_post_bootrom`: the documented post-boot register file
(flags `C | H | Z`, `ime` set). -/
def newPostBootrom : Registers :=
  { b := 0x00, c := 0x13, d := 0x00, e := 0xD8, h := 0x01, l := 0x4D
    flags := ⟨flagC ||| flagH ||| flagZ⟩
    a := 0x01, sp := 0xFFFE, pc := 0x100, ime := true }

/-- `Registers::hl` (`u16::from_be_bytes([h, l])`). -/
def hl (r : Registers) : Nat := r.h * 256 + r.l

/-- `Registers::set_hl`. -/
def setHl (r : Registers) (value : Nat) : Registers :=
  { r with h := (value >>> 8) &&& 0xFF, l := value &&& 0xFF }

/-- `Registers::af` (`u16::from_be_bytes([a, flags.value()])`). -/
def af (r : Registers) : Nat := r.a * 256 + r.flags.bits

/-- `Registers::set_af`: the high byte goes to A, the low byte through
`Flags::set_value` (which truncates to the four flag bits). -/
def setAf (r : Registers) (value : Nat) : Registers :=
  { r with a := (value >>> 8) &&& 0xFF, flags := r.flags.setValue (value &&& 0xFF) }

end Registers

/-! ## `gameboy/interrupts.rs` -/

/-- The `Interrupt` flag enum. -/
inductive Interrupt where
  | VBlank
  | LcdStat
  | Timer
  | Serial
  | Joypad
deriving Repr, DecidableEq

namespace Interrupt

/-- The flag bit of each interrupt in IF / IE (`flags!` discriminants). -/
def bits : Interrupt → Nat
  | .VBlank => 0b00001
  | .LcdStat => 0b00010
  | .Timer => 0b00100
  | .Serial => 0b01000
  | .Joypad => 0b10000

/-- `Interrupt::address`: the interrupt vector. -/
def address : Interrupt → Nat
  | .VBlank => 0x40
  | .LcdStat => 0x48
  | .Timer => 0x50
  | .Serial => 0x58
  | .Joypad => 0x60

/-- Position of an interrupt in the fixed service priority order
(the probe order of `Mmu::next_interrupt`). -/
def priorityIndex : Interrupt → Nat
  | .VBlank => 0
  | .LcdStat => 1
  | .Timer => 2
  | .Serial => 3
  | .Joypad => 4

end Interrupt

/-- `FlagSet::<Interrupt>::new_truncated`: keep the five defined bits. -/
def interruptTruncate (v : Nat) : Nat := v &&& 0b11111

/-! ## `gameboy/io.rs` — buttons and timer -/

/-- The `InputLine` enum of the joypad matrix, with its `u8` discriminants. -/
inductive InputLine where
  | Directions
  | Buttons
  | Both
  | NoLine
deriving Repr, DecidableEq

/-- The `as u8` value of an `InputLine` (`InputLine` discriminants). `None`
in the source is spelled `NoLine` here. -/
def InputLine.value : InputLine → Nat
  | .Directions => 0x10
  | .Buttons => 0x20
  | .Both => 0x30
  | .NoLine => 0x00

/-- `Buttons` of `io.rs` (the joypad matrix state). -/
structure Buttons where
  directions : Nat
  buttons : Nat
  currentLine : InputLine
  interruptRaised : Bool
deriving Repr, DecidableEq

namespace Buttons

/-- `Buttons::new`. -/
def new : Buttons := ⟨0x0F, 0x0F, .NoLine, false⟩

/-- `Buttons::read`: high bits set, selected line bits, active-low nibble. -/
def read (b : Buttons) : Nat :=
  let nibbleL := match b.currentLine with
    | .Directions => b.directions &&& 0xF
    | .Buttons => b.buttons &&& 0xF
    | .Both => 0xF
    | .NoLine => b.buttons &&& b.directions &&& 0xF
  0xC0 ||| b.currentLine.value ||| nibbleL

/-- `Buttons::write`: select the exposed line and raise the joypad
interrupt when a pressed key is now visible. -/
def write (b : Buttons) (value : Nat) : Buttons :=
  let line := match (value >>> 4) &&& 0b11 with
    | 0b01 => InputLine.Buttons
    | 0b10 => InputLine.Directions
    | 0b11 => InputLine.Both
    | _ => InputLine.NoLine
  let b := { b with currentLine := line }
  if b.read &&& 0xF != 0xF then { b with interruptRaised := true } else b

end Buttons

/-- The `InputClock` enum of the timer (TAC clock select). -/
inductive InputClock where
  | CpuDiv1024
  | CpuDiv16
  | CpuDiv64
  | CpuDiv256
deriving Repr, DecidableEq

namespace InputClock

/-- `InputClock::bit`: the divider bit whose toggling clocks TIMA. -/
def bit : InputClock → Nat
  | .CpuDiv1024 => 1 <<< 10
  | .CpuDiv16 => 1 <<< 4
  | .CpuDiv64 => 1 <<< 6
  | .CpuDiv256 => 1 <<< 8

/-- The `as u8` discriminant (TAC low bits). -/
def value : InputClock → Nat
  | .CpuDiv1024 => 0b00
  | .CpuDiv16 => 0b01
  | .CpuDiv64 => 0b10
  | .CpuDiv256 => 0b11

end InputClock

/-- The `TimerState` enum: a TIMA overflow is latched for one tick. -/
inductive TimerState where
  | Normal
  | Overflowed
deriving Repr, DecidableEq

/-- `Timer` of `io.rs` (DIV, TIMA, TMA, TAC state). -/
structure Timer where
  divider : Nat
  counter : Nat
  modulo : Nat
  enabled : Bool
  apuIncDiv : Bool
  inputClock : InputClock
  state : TimerState
deriving Repr, DecidableEq

/-- The value returned by `Timer::tick`. -/
structure TimerTick where
  timerOverflow : Bool
  apuIncDiv : Bool
deriving Repr, DecidableEq

namespace Timer

/-- `Timer::new`. -/
def new : Timer :=
  { divider := 0, counter := 0, modulo := 0, enabled := false
    apuIncDiv := false, inputClock := .CpuDiv1024, state := .Normal }

/-- `Timer::increase_counter`: bump TIMA (`u8::overflowing_add`), latching
the `Overflowed` state on wrap. -/
def increaseCounter (t : Timer) : Timer :=
  let counter := (t.counter + 1) % 256
  let overflowed := decide (t.counter + 1 ≥ 256)
  { t with counter, state := if overflowed then .Overflowed else t.state }

/-- `Timer::tick`: advance the 16-bit divider by 4; report an APU frame
sequencer step when the divider lands exactly on `0x20` (or a DIV
write latched one); when enabled, clock TIMA on a toggle of the selected
divider bit, and resolve a latched overflow by reloading TMA and raising
the timer interrupt one tick late. -/
def tick (t : Timer) : Timer × TimerTick :=
  let oldDivider := t.divider
  let t := { t with divider := (t.divider + 4) % 65536 }
  let apuIncDiv := (t.divider == 0x20) || t.apuIncDiv
  let t := { t with apuIncDiv := false }
  if !t.enabled then
    (t, { apuIncDiv, timerOverflow := false })
  else
    match t.state with
    | .Normal =>
      let t :=
        if (oldDivider ^^^ t.divider) &&& t.inputClock.bit != 0 then t.increaseCounter else t
      (t, { timerOverflow := false, apuIncDiv })
    | .Overflowed =>
      ({ t with counter := t.modulo, state := .Normal },
        { timerOverflow := true, apuIncDiv })

/-- `Timer::read` of the four timer registers (DIV reads the divider's
high byte). Addresses outside `FF04..FF07` panic in the source and are
unreachable from the MMU decode; they return `0xFF` here. -/
def read (t : Timer) (address : Nat) : Nat :=
  if address == 0xFF04 then (t.divider >>> 8) &&& 0xFF
  else if address == 0xFF05 then t.counter
  else if address == 0xFF06 then t.modulo
  else if address == 0xFF07 then 0xF8 ||| (b2n t.enabled <<< 2) ||| t.inputClock.value
  else 0xFF

/-- `Timer::write` of the four timer registers, with the DIV-reset timer
and APU edge quirks and the TAC glitch increments. -/
def write (t : Timer) (address : Nat) (value : Nat) : Timer :=
  if address == 0xFF04 then
    let t := if t.divider &&& t.inputClock.bit != 0 then t.increaseCounter else t
    let t := if t.divider &&& 0x10 != 0 then { t with apuIncDiv := true } else t
    { t with divider := 0 }
  else if address == 0xFF05 then { t with counter := value }
  else if address == 0xFF06 then { t with modulo := value }
  else if address == 0xFF07 then
    let oldEnabled := t.enabled
    let oldDivBit := t.divider &&& t.inputClock.bit
    let enabled := value &&& 0b100 != 0
    let inputClock := match value &&& 0b11 with
      | 0 => InputClock.CpuDiv1024
      | 1 => InputClock.CpuDiv16
      | 2 => InputClock.CpuDiv64
      | _ => InputClock.CpuDiv256
    let t := { t with enabled, inputClock }
    let newDivBit := t.divider &&& t.inputClock.bit
    if (oldEnabled && !t.enabled && decide (oldDivBit ≠ 0))
        || (!oldEnabled && t.enabled && decide (oldDivBit = 0) && decide (newDivBit ≠ 0)) then
      t.increaseCounter
    else t
  else t

end Timer

/-- `Io` of `io.rs`: buttons plus timer. -/
structure Io where
  buttons : Buttons
  timer : Timer
deriving Repr, DecidableEq

/-- The value returned by `Io::tick` (interrupt bits plus the APU frame
sequencer strobe). -/
structure IoTick where
  interrupts : Nat
  apuIncDiv : Bool
deriving Repr, DecidableEq

namespace Io

/-- `Io::new`. -/
def new : Io := ⟨Buttons.new, Timer.new⟩

/-- `Io::tick`: gather the joypad interrupt and tick the timer. -/
def tick (io : Io) : Io × IoTick :=
  let interrupts := if io.buttons.interruptRaised then Interrupt.Joypad.bits else 0
  let (timer, tt) := io.timer.tick
  let interrupts := if tt.timerOverflow then interrupts ||| Interrupt.Timer.bits else interrupts
  ({ io with timer }, { interrupts, apuIncDiv := tt.apuIncDiv })

/-- `Io::tick_stopped`: only the joypad line is alive while stopped. -/
def tickStopped (io : Io) : Nat :=
  if io.buttons.interruptRaised then Interrupt.Joypad.bits else 0

/-- `Io::read` over `FF00..FF07` (serial stubbed at `0xFF`). -/
def read (io : Io) (address : Nat) : Nat :=
  if address == 0xFF00 then io.buttons.read
  else if address == 0xFF01 then 0xFF
  else if address == 0xFF02 then 0xFF
  else if address == 0xFF03 then 0xFF
  else if 0xFF04 ≤ address ∧ address ≤ 0xFF07 then io.timer.read address
  else 0xFF

/-- `Io::write` over `FF00..FF07`. -/
def write (io : Io) (address : Nat) (value : Nat) : Io :=
  if address == 0xFF00 then { io with buttons := io.buttons.write value }
  else if 0xFF04 ≤ address ∧ address ≤ 0xFF07 then
    { io with timer := io.timer.write address value }
  else io

end Io

/-! ## `gameboy/cartridge/` — errors, mappers, header, cartridge -/

/-- The `Error` enum of `error.rs`. Modelled from the spec: the `error.rs`
under `src/` is an earlier revision missing the `SaveNotSupported` and
`InvalidRtcData` variants that `gameboy/cartridge/mod.rs` constructs; the
variant set follows the spec's §7 error table and that usage. -/
inductive Error where
  | MissingBootrom
  | InvalidBootRom
  | InvalidSave
  | InvalidRomHeader (reason : String)
  | UnsupportedMapper (id : Nat)
  | SaveNotSupported
  | InvalidRtcData
deriving Repr, DecidableEq

/-- The `Destination` enum of the cartridge header. -/
inductive Destination where
  | Japanese
  | NonJapanese
deriving Repr, DecidableEq

/-- `Header` of `cartridge/mod.rs`. The title is kept as its raw bytes
(the source decodes them lossily to a `String`, which never fails). -/
structure Header where
  title : List Nat
  romSize : Nat
  romBankCount : Nat
  ramSize : Nat
  ramBankCount : Nat
  destination : Destination
deriving Repr, DecidableEq

/-- `RomOnly` of `cartridge/rom_only.rs` (stateless). -/
inductive RomOnly where
  | mk
deriving Repr, DecidableEq

namespace RomOnly

/-- `RomOnly::read_rom`: straight indexing (`none` models the Rust panic). -/
def readRom (_m : RomOnly) (rom : List Nat) (address : Nat) : Option Nat :=
  rom.get? address

/-- `RomOnly::write_rom`: ignored. -/
def writeRom (m : RomOnly) (_address _value : Nat) : RomOnly := m

/-- `RomOnly::read_ram`: no RAM, open bus. -/
def readRam (_m : RomOnly) (_ram : List Nat) (_address : Nat) : Option Nat := some 0xFF

/-- `RomOnly::write_ram`: ignored. -/
def writeRam (m : RomOnly) (ram : List Nat) (_address _value : Nat) : RomOnly × List Nat :=
  (m, ram)

end RomOnly

/-- The `BankMode` enum of MBC1. -/
inductive BankMode where
  | RomHighBits
  | Ram
deriving Repr, DecidableEq

/-- `Mbc1` of `cartridge/mbc1.rs`. -/
structure Mbc1 where
  hasRam : Bool
  hasBattery : Bool
  ramEnabled : Bool
  romBankCount : Nat
  currentRomBank : Nat
  bankMode : BankMode
  modeRegister : Nat
deriving Repr, DecidableEq

namespace Mbc1

/-- `Mbc1::new`. -/
def new (romBankCount : Nat) (hasRam hasBattery : Bool) : Mbc1 :=
  { hasRam, hasBattery, ramEnabled := false, romBankCount
    currentRomBank := 1, bankMode := .RomHighBits, modeRegister := 0 }

/-- `Mbc1::rom_address_low` (the `<< 5` is a `u8` shift). -/
def romAddressLow (m : Mbc1) (address : Nat) : Nat :=
  match m.bankMode with
  | .RomHighBits => address + u8 (m.modeRegister <<< 5) * 0x4000
  | .Ram => address

/-- `Mbc1::rom_address_high`. -/
def romAddressHigh (m : Mbc1) (address : Nat) : Nat :=
  match m.bankMode with
  | .RomHighBits =>
    address - 0x4000 + u8 (u8 (m.modeRegister <<< 5) ||| m.currentRomBank) * 0x4000
  | .Ram => address - 0x4000 + m.currentRomBank * 0x4000

/-- `Mbc1::ram_address`. -/
def ramAddress (m : Mbc1) (address : Nat) : Nat :=
  match m.bankMode with
  | .RomHighBits => address
  | .Ram => address + m.currentRomBank * 0x2000

/-- `Mbc1::read_rom` (`none` models the Rust panics: out-of-window address
or out-of-bounds bank index). -/
def readRom (m : Mbc1) (rom : List Nat) (address : Nat) : Option Nat :=
  if address ≤ 0x3FFF then rom.get? (m.romAddressLow address)
  else if address ≤ 0x7FFF then rom.get? (m.romAddressHigh address)
  else none

/-- `Mbc1::write_rom`: the four register windows (RAM enable, low bank
bits with the zero-to-one adjustment, mode bank bits, bank mode). -/
def writeRom (m : Mbc1) (address value : Nat) : Mbc1 :=
  if address ≤ 0x1FFF then { m with ramEnabled := (value &&& 0xF) == 0xA }
  else if address ≤ 0x3FFF then
    let lowerBits := (value &&& 0b11111) &&& u8 (m.romBankCount - 1)
    { m with currentRomBank :=
        (m.currentRomBank &&& 0xE0) ||| (if lowerBits != 0 then lowerBits else 1) }
  else if address ≤ 0x5FFF then { m with modeRegister := value &&& 0b11 }
  else if address ≤ 0x7FFF then
    { m with bankMode := if value &&& 1 == 0 then .RomHighBits else .Ram }
  else m

/-- `Mbc1::read_ram`. -/
def readRam (m : Mbc1) (ram : List Nat) (address : Nat) : Option Nat :=
  if !m.hasRam || !m.ramEnabled || decide (address ≥ ram.length) then some 0xFF
  else ram.get? (m.ramAddress address)

/-- `Mbc1::write_ram` (note the source guards with `address <= ram.len()`,
not `<`; the out-of-bounds store this lets through panics in Rust and is a
no-op here). -/
def writeRam (m : Mbc1) (ram : List Nat) (address value : Nat) : Mbc1 × List Nat :=
  if m.hasRam && m.ramEnabled && decide (address ≤ ram.length) then
    (m, ram.set (m.ramAddress address) value)
  else (m, ram)

end Mbc1

/-- `Mbc2` of `cartridge/mbc2.rs`. The `_rom_bank_count` field of that
revision is dropped: the constructor call sites in `cartridge/mod.rs` pass
only the battery flag. -/
structure Mbc2 where
  hasBattery : Bool
  ramEnabled : Bool
  romBank : Nat
deriving Repr, DecidableEq

namespace Mbc2

/-- The internal MBC2 RAM size (512 half-bytes). -/
def RAM_SIZE : Nat := 0x200

/-- `Mbc2::new` (as called from `cartridge/mod.rs`). -/
def new (hasBattery : Bool) : Mbc2 :=
  { hasBattery, ramEnabled := false, romBank := 1 }

/-- `Mbc2::rom_address_high` (`rom_bank` is always at least 1). -/
def romAddressHigh (m : Mbc2) (address : Nat) : Nat :=
  address + u8 (m.romBank + 255) * 0x4000

/-- `Mbc2::read_rom`. -/
def readRom (m : Mbc2) (rom : List Nat) (address : Nat) : Option Nat :=
  if address ≤ 0x3FFF then rom.get? address
  else if address ≤ 0x7FFF then rom.get? (m.romAddressHigh address)
  else none

/-- `Mbc2::write_rom`: bit 8 of the address picks RAM enable vs ROM bank
(`u8::max(value & 0x0F, 1)`). -/
def writeRom (m : Mbc2) (address value : Nat) : Mbc2 :=
  if address ≤ 0x3FFF then
    if address &&& 0x100 == 0 then { m with ramEnabled := (value &&& 0xF) == 0b1010 }
    else { m with romBank := Nat.max (value &&& 0x0F) 1 }
  else m

/-- `Mbc2::ram_address`: the 512 half-bytes alias through `0x1FF`. -/
def ramAddress (_m : Mbc2) (address : Nat) : Nat := address &&& 0x1FF

/-- `Mbc2::read_ram`: upper nibble reads back set. -/
def readRam (m : Mbc2) (ram : List Nat) (address : Nat) : Option Nat :=
  if !m.ramEnabled then some 0xFF
  else (ram.get? (m.ramAddress address)).map (· ||| 0xF0)

/-- `Mbc2::write_ram`: stores with the upper nibble forced set. -/
def writeRam (m : Mbc2) (ram : List Nat) (address value : Nat) : Mbc2 × List Nat :=
  if m.ramEnabled then (m, ram.set (m.ramAddress address) (value ||| 0xF0))
  else (m, ram)

end Mbc2

/-- `RtcRegisters` of `cartridge/mbc3.rs`. -/
structure RtcRegisters where
  seconds : Nat
  minutes : Nat
  hours : Nat
  days : Nat
  carry : Bool
  halt : Bool
deriving Repr, DecidableEq

namespace RtcRegisters

/-- The default (all-zero) RTC registers. -/
def default : RtcRegisters := ⟨0, 0, 0, 0, false, false⟩

/-- `RtcRegisters::days_high_byte`. -/
def daysHighByte (r : RtcRegisters) : Nat :=
  ((r.days >>> 8) &&& 1) ||| (b2n r.halt <<< 6) ||| (b2n r.carry <<< 7)

/-- `RtcRegisters::set_days_high_byte`. -/
def setDaysHighByte (r : RtcRegisters) (value : Nat) : RtcRegisters :=
  { r with days := (r.days &&& 0x00FF) ||| ((value &&& 1) <<< 8)
           carry := value >>> 7 != 0
           halt := (value >>> 6) &&& 1 != 0 }

/-- A little-endian `u32` read (`nom::number::complete::le_u32`): fails on
fewer than four remaining bytes. -/
def leU32 (input : List Nat) : Option (List Nat × Nat) :=
  match input with
  | b0 :: b1 :: b2 :: b3 :: rest => some (rest, b0 + b1 * 0x100 + b2 * 0x10000 + b3 * 0x1000000)
  | _ => none

/-- A little-endian `u64` read (`nom::number::complete::le_u64`). -/
def leU64 (input : List Nat) : Option (List Nat × Nat) :=
  match leU32 input with
  | some (rest, low) =>
    match leU32 rest with
    | some (rest, high) => some (rest, low + high * 0x100000000)
    | none => none
  | none => none

/-- `RtcRegisters::parse`: five little-endian `u32`s (seconds, minutes,
hours, days low, days high), each truncated to its register width. -/
def parse (input : List Nat) : Option (List Nat × RtcRegisters) :=
  match leU32 input with
  | none => none
  | some (input, seconds) =>
  match leU32 input with
  | none => none
  | some (input, minutes) =>
  match leU32 input with
  | none => none
  | some (input, hours) =>
  match leU32 input with
  | none => none
  | some (input, daysLow) =>
  match leU32 input with
  | none => none
  | some (input, daysHigh) =>
    let regs : RtcRegisters :=
      { seconds := u8 seconds, minutes := u8 minutes, hours := u8 hours
        days := u16 daysLow, carry := false, halt := false }
    some (input, regs.setDaysHighByte (u8 daysHigh))

end RtcRegisters

/-- `Mbc3` of `cartridge/mbc3.rs`. -/
structure Mbc3 where
  hasRtc : Bool
  hasRam : Bool
  hasBattery : Bool
  romBank : Nat
  ramBankRtcSelect : Nat
  ramRtcEnabled : Bool
  currentTime : RtcRegisters
  latchedTime : RtcRegisters
  latchToggle : Bool
  cycles : Nat
deriving Repr, DecidableEq

namespace Mbc3

/-- `Mbc3::new`. -/
def new (hasRtc hasRam hasBattery : Bool) : Mbc3 :=
  { hasRtc, hasRam, hasBattery, romBank := 1, ramBankRtcSelect := 0
    ramRtcEnabled := false, currentTime := RtcRegisters.default
    latchedTime := RtcRegisters.default, latchToggle := false, cycles := 0 }

/-- The `carry_add` closure of `Mbc3::set_rtc_data`: two chained
`u8::overflowing_add`s. -/
def carryAdd (a b : Nat) (prevCarry : Bool) : Nat × Bool :=
  let sum := (a + b) % 256
  let carry := decide (a + b ≥ 256)
  let sum2 := (sum + b2n prevCarry) % 256
  let carry2 := decide (sum + b2n prevCarry ≥ 256)
  (sum2, carry || carry2)

/-- `Mbc3::set_rtc_data`: parse the 48-byte RTC save tail (two register
sets and a unix timestamp) and, when the clock is running and time has
passed since the save, roll the wall-clock delta into the current time.
The host clock read (`SystemTime::now`) is passed in as `timestampNow`.
Returns `none` on a parse failure (the `nom` error). -/
def setRtcData (m : Mbc3) (rtcData : List Nat) (timestampNow : Nat) : Option Mbc3 :=
  if !m.hasRtc then some m
  else
    match RtcRegisters.parse rtcData with
    | none => none
    | some (input, currentTime) =>
    match RtcRegisters.parse input with
    | none => none
    | some (input, latchedTime) =>
    match RtcRegisters.leU64 input with
    | none => none
    | some (_, timestamp) =>
      let m := { m with currentTime, latchedTime }
      if timestampNow > timestamp && !m.currentTime.halt then
        let delta := timestampNow - timestamp
        let secSum := delta % 60 + m.currentTime.seconds
        let seconds := secSum % 256
        let carry := decide (secSum ≥ 256)
        let (minutes, carry) := carryAdd (delta % 3600 / 60) m.currentTime.minutes carry
        let (hours, carry) := carryAdd (delta % 86400 / 3600) m.currentTime.hours carry
        let days := u16 (m.currentTime.days + Nat.min (u16 (delta / 86400)) 0x1FF + b2n carry)
        let t : RtcRegisters := { m.currentTime with seconds, minutes, hours, days }
        let t : RtcRegisters :=
          if t.days > 0x1FF then { t with days := t.days - 0x1FF, carry := true } else t
        some { m with currentTime := t }
      else some m

/-- `Mbc3::has_rtc`. -/
def hasRtcFn (m : Mbc3) : Bool := m.hasRtc

/-- `Mbc3::read_rom` (the bank was forced nonzero on write, so the
`rom_bank - 1` is the plain decrement; modelled with the `u8` wrap). -/
def readRom (m : Mbc3) (rom : List Nat) (address : Nat) : Option Nat :=
  if address ≤ 0x3FFF then rom.get? address
  else if address ≤ 0x7FFF then rom.get? (address + u8 (m.romBank + 255) * 0x4000)
  else none

/-- `Mbc3::write_rom`: RAM/RTC enable, ROM bank (7 bits, zero-to-one),
RAM bank / RTC register select, and the 0-to-1 RTC latch. -/
def writeRom (m : Mbc3) (address value : Nat) : Mbc3 :=
  if address ≤ 0x1FFF then { m with ramRtcEnabled := (value &&& 0x0F) == 0x0A }
  else if address ≤ 0x3FFF then { m with romBank := Nat.max (value &&& 0x7F) 1 }
  else if address ≤ 0x5FFF then { m with ramBankRtcSelect := value &&& 0x0F }
  else if address ≤ 0x7FFF then
    let set := (value &&& 1) != 0
    let m := if !m.latchToggle && set then { m with latchedTime := m.currentTime } else m
    { m with latchToggle := set }
  else m

/-- `Mbc3::read_ram`: RAM banks 0-3 or the latched RTC registers
(match-arm guards fall through to the `0xFF` default). -/
def readRam (m : Mbc3) (ram : List Nat) (address : Nat) : Option Nat :=
  if !m.ramRtcEnabled then some 0xFF
  else if m.ramBankRtcSelect ≤ 3 && m.hasRam then
    ram.get? (address + m.ramBankRtcSelect * 0x2000)
  else if m.ramBankRtcSelect == 0x08 && m.hasRtc then some m.latchedTime.seconds
  else if m.ramBankRtcSelect == 0x09 && m.hasRtc then some m.latchedTime.minutes
  else if m.ramBankRtcSelect == 0x0A && m.hasRtc then some m.latchedTime.hours
  else if m.ramBankRtcSelect == 0x0B && m.hasRtc then some (u8 m.latchedTime.days)
  else if m.ramBankRtcSelect == 0x0C && m.hasRtc then some m.latchedTime.daysHighByte
  else some 0xFF

/-- `Mbc3::write_ram`: RAM banks (no `has_ram` guard in the source) or the
current-time RTC registers with their write masks. -/
def writeRam (m : Mbc3) (ram : List Nat) (address value : Nat) : Mbc3 × List Nat :=
  if !m.ramRtcEnabled then (m, ram)
  else if m.ramBankRtcSelect ≤ 3 then
    (m, ram.set (address + m.ramBankRtcSelect * 0x2000) value)
  else if m.ramBankRtcSelect == 0x08 then
    ({ m with currentTime := { m.currentTime with seconds := value &&& 0b111111 } }, ram)
  else if m.ramBankRtcSelect == 0x09 then
    ({ m with currentTime := { m.currentTime with minutes := value &&& 0b111111 } }, ram)
  else if m.ramBankRtcSelect == 0x0A then
    ({ m with currentTime := { m.currentTime with hours := value &&& 0b11111 } }, ram)
  else if m.ramBankRtcSelect == 0x0B then
    ({ m with currentTime :=
        { m.currentTime with days := (m.currentTime.days &&& 0xFF00) ||| u8 value } }, ram)
  else if m.ramBankRtcSelect == 0x0C then
    ({ m with currentTime := m.currentTime.setDaysHighByte value }, ram)
  else (m, ram)

/-- `Mbc3::tick` (`MapperOps::tick`): advance the RTC by one second every
`Gameboy::CYCLES_PER_SECOND` master cycles while running, with the
cascading rollovers and masked-register resets of the source. -/
def tick (m : Mbc3) : Mbc3 :=
  if !m.hasRtc || m.currentTime.halt then { m with cycles := 0 }
  else
    let m := { m with cycles := m.cycles + 4 }
    if m.cycles == 4194304 then
      let t := m.currentTime
      let t := { t with seconds := t.seconds + 1 }
      let t : RtcRegisters :=
        if t.seconds == 60 then
          let t := { t with seconds := 0, minutes := t.minutes + 1 }
          if t.minutes == 60 then
            let t := { t with minutes := 0, hours := t.hours + 1 }
            if t.hours == 24 then
              let t := { t with hours := 0, days := t.days + 1 }
              if t.days > 0x1FF then { t with days := 0, carry := true } else t
            else if t.hours == 0x20 then { t with hours := 0 } else t
          else if t.minutes == 0x40 then { t with minutes := 0 } else t
        else if t.seconds == 0x40 then { t with seconds := 0 } else t
      { m with cycles := 0, currentTime := t }
    else m

end Mbc3

/-- `Mbc5` of `cartridge/mbc5.rs`. -/
structure Mbc5 where
  hasRumble : Bool
  hasRam : Bool
  hasBattery : Bool
  romBank : Nat
  ramBank : Nat
  ramBankMask : Nat
  ramEnabled : Bool
deriving Repr, DecidableEq

namespace Mbc5

/-- `Mbc5::new`. -/
def new (hasRumble hasRam hasBattery : Bool) : Mbc5 :=
  { hasRumble, hasRam, hasBattery, romBank := 1, ramBank := 0
    ramBankMask := if hasRumble then 0b0111 else 0b1111, ramEnabled := false }

/-- `Mbc5::read_rom`: the switchable window indexes with `rom_bank - 1`
on the unsigned `u16` (wrapping to `0xFFFF` when the bank is 0; `none`
models the Rust panic on the resulting out-of-bounds index). -/
def readRom (m : Mbc5) (rom : List Nat) (address : Nat) : Option Nat :=
  if address ≤ 0x3FFF then rom.get? address
  else if address ≤ 0x7FFF then rom.get? (address + ((m.romBank + 0xFFFF) % 0x10000) * 0x4000)
  else none

/-- `Mbc5::write_rom`: RAM enable, the low eight and ninth ROM-bank bits
(no zero-to-one adjustment), and the RAM bank (masked for rumble). -/
def writeRom (m : Mbc5) (address value : Nat) : Mbc5 :=
  if address ≤ 0x1FFF then { m with ramEnabled := (value &&& 0x0F) == 0b1010 }
  else if address ≤ 0x2FFF then { m with romBank := (m.romBank &&& 0xFF00) ||| u8 value }
  else if address ≤ 0x3FFF then
    { m with romBank := (m.romBank &&& 0x00FF) ||| ((value &&& 1) <<< 8) }
  else if address ≤ 0x5FFF then { m with ramBank := value &&& m.ramBankMask }
  else m

/-- `Mbc5::read_ram` (no RAM-enable check in the source). -/
def readRam (m : Mbc5) (ram : List Nat) (address : Nat) : Option Nat :=
  if m.hasRam then ram.get? (address + m.ramBank * 0x2000)
  else some 0xFF

/-- `Mbc5::write_ram`: the source body is empty — every external-RAM
write is dropped. -/
def writeRam (m : Mbc5) (ram : List Nat) (_address _value : Nat) : Mbc5 × List Nat :=
  (m, ram)

end Mbc5

/-- The `Mapper` tagged variant of `cartridge/mod.rs`. -/
inductive Mapper where
  | RomOnly (m : RomOnly)
  | Mbc1 (m : Mbc1)
  | Mbc2 (m : Mbc2)
  | Mbc3 (m : Mbc3)
  | Mbc5 (m : Mbc5)
deriving Repr, DecidableEq

namespace Mapper

/-- `MapperOps::read_rom` dispatch. -/
def readRom (m : Mapper) (rom : List Nat) (address : Nat) : Option Nat :=
  match m with
  | .RomOnly m => m.readRom rom address
  | .Mbc1 m => m.readRom rom address
  | .Mbc2 m => m.readRom rom address
  | .Mbc3 m => m.readRom rom address
  | .Mbc5 m => m.readRom rom address

/-- `MapperOps::write_rom` dispatch (register writes; none of the mappers
touches the ROM bytes). -/
def writeRom (m : Mapper) (address value : Nat) : Mapper :=
  match m with
  | .RomOnly m => .RomOnly (m.writeRom address value)
  | .Mbc1 m => .Mbc1 (m.writeRom address value)
  | .Mbc2 m => .Mbc2 (m.writeRom address value)
  | .Mbc3 m => .Mbc3 (m.writeRom address value)
  | .Mbc5 m => .Mbc5 (m.writeRom address value)

/-- `MapperOps::read_ram` dispatch. -/
def readRam (m : Mapper) (ram : List Nat) (address : Nat) : Option Nat :=
  match m with
  | .RomOnly m => m.readRam ram address
  | .Mbc1 m => m.readRam ram address
  | .Mbc2 m => m.readRam ram address
  | .Mbc3 m => m.readRam ram address
  | .Mbc5 m => m.readRam ram address

/-- `MapperOps::write_ram` dispatch. -/
def writeRam (m : Mapper) (ram : List Nat) (address value : Nat) : Mapper × List Nat :=
  match m with
  | .RomOnly m => let (m, ram) := m.writeRam ram address value; (.RomOnly m, ram)
  | .Mbc1 m => let (m, ram) := m.writeRam ram address value; (.Mbc1 m, ram)
  | .Mbc2 m => let (m, ram) := m.writeRam ram address value; (.Mbc2 m, ram)
  | .Mbc3 m => let (m, ram) := m.writeRam ram address value; (.Mbc3 m, ram)
  | .Mbc5 m => let (m, ram) := m.writeRam ram address value; (.Mbc5 m, ram)

/-- `MapperOps::tick` dispatch: only MBC3 (the RTC) overrides the default
no-op. -/
def tick (m : Mapper) : Mapper :=
  match m with
  | .Mbc3 m => .Mbc3 m.tick
  | m => m

/-- `MapperOps::has_battery` dispatch: only MBC3 overrides the trait's
`false` default in this revision (`mbc2.rs` / `mbc5.rs` define `can_save`,
which is not a trait method). -/
def hasBattery (m : Mapper) : Bool :=
  match m with
  | .Mbc3 m => m.hasBattery
  | _ => false

end Mapper

/-- `Header::parse` of `cartridge/mod.rs` (also selects the mapper). -/
def Header.parse (romBytes : List Nat) : Except Error (Header × Mapper) :=
  if romBytes.length < 0x014F then .error (.InvalidRomHeader "Header is too short")
  else
    let title := ((romBytes.drop 0x134).take 0x10).takeWhile (fun b => b != 0)
    let bankByte := romBytes.getD 0x148 0
    if bankByte > 0x08 then .error (.InvalidRomHeader "Invalid rom bank count")
    else
      let romBankCount := 2 <<< bankByte
      let romSize := 0x4000 * romBankCount
      let ramByte := romBytes.getD 0x149 0
      let ramPair : Option (Nat × Nat) :=
        if ramByte == 0x00 then some (0, 0)
        else if ramByte == 0x02 then some (1, 0x2000)
        else if ramByte == 0x03 then some (4, 0x2000 * 4)
        else if ramByte == 0x04 then some (16, 0x2000 * 16)
        else if ramByte == 0x05 then some (8, 0x2000 * 8)
        else none
      match ramPair with
      | none => .error (.InvalidRomHeader "Invalid ram bank count")
      | some (ramBankCount, ramSize) =>
        let mapperByte := romBytes.getD 0x147 0
        let mapperOpt : Option Mapper :=
          if mapperByte == 0x00 then some (.RomOnly .mk)
          else if mapperByte == 0x01 then some (.Mbc1 (Mbc1.new romBankCount false false))
          else if mapperByte == 0x02 then some (.Mbc1 (Mbc1.new romBankCount true false))
          else if mapperByte == 0x03 then some (.Mbc1 (Mbc1.new romBankCount true true))
          else if mapperByte == 0x05 then some (.Mbc2 (Mbc2.new false))
          else if mapperByte == 0x06 then some (.Mbc2 (Mbc2.new true))
          else if mapperByte == 0x0F then some (.Mbc3 (Mbc3.new true false true))
          else if mapperByte == 0x10 then some (.Mbc3 (Mbc3.new true true true))
          else if mapperByte == 0x11 then some (.Mbc3 (Mbc3.new false false false))
          else if mapperByte == 0x12 then some (.Mbc3 (Mbc3.new false true false))
          else if mapperByte == 0x13 then some (.Mbc3 (Mbc3.new false true true))
          else if mapperByte == 0x19 then some (.Mbc5 (Mbc5.new false false false))
          else if mapperByte == 0x1A then some (.Mbc5 (Mbc5.new false true false))
          else if mapperByte == 0x1B then some (.Mbc5 (Mbc5.new false true true))
          else if mapperByte == 0x1C then some (.Mbc5 (Mbc5.new true false false))
          else if mapperByte == 0x1D then some (.Mbc5 (Mbc5.new true true false))
          else if mapperByte == 0x1E then some (.Mbc5 (Mbc5.new true true true))
          else none
        match mapperOpt with
        | none => .error (.UnsupportedMapper mapperByte)
        | some mapper =>
          let destByte := romBytes.getD 0x14A 0
          if destByte == 0x00 then
            .ok ({ title, romSize, romBankCount, ramSize, ramBankCount
                   destination := .Japanese }, mapper)
          else if destByte == 0x01 then
            .ok ({ title, romSize, romBankCount, ramSize, ramBankCount
                   destination := .NonJapanese }, mapper)
          else .error (.InvalidRomHeader "Invalid destination")

/-- `Cartridge` of `cartridge/mod.rs`. -/
structure Cartridge where
  header : Header
  mapper : Mapper
  bootrom : Option (List Nat)
  bootromEnabled : Bool
  rom : List Nat
  ram : List Nat
deriving Repr, DecidableEq

namespace Cartridge

/-- `Cartridge::new`: parse the header, validate an optional save blob
(battery required, MBC3 RTC tail handling, exact length), and check the
optional boot ROM's size. The host clock read inside `set_rtc_data` is
passed in as `timestampNow`. -/
def new (rom : List Nat) (bootrom : Option (List Nat)) (save : Option (List Nat))
    (timestampNow : Nat) : Except Error Cartridge :=
  match Header.parse rom with
  | .error e => .error e
  | .ok (header, mapper) =>
    let ramSize := match mapper with
      | .Mbc2 _ => Mbc2.RAM_SIZE
      | _ => header.ramSize
    let ramResult : Except Error (Mapper × List Nat) :=
      match save with
      | some save =>
        if !mapper.hasBattery then .error .SaveNotSupported
        else
          let afterRtc : Except Error (Mapper × List Nat) :=
            match mapper with
            | .Mbc3 m3 =>
              if save.length == ramSize + 48 && m3.hasRtcFn then
                match m3.setRtcData (save.drop ramSize) timestampNow with
                | some m3 => .ok (.Mbc3 m3, save.take ramSize)
                | none => .error .InvalidRtcData
              else .error .InvalidRtcData
            | mapper => .ok (mapper, save)
          match afterRtc with
          | .error e => .error e
          | .ok (mapper, save) =>
            if save.length != ramSize then .error .InvalidSave
            else .ok (mapper, save)
      | none => .ok (mapper, List.replicate ramSize 0)
    match ramResult with
    | .error e => .error e
    | .ok (mapper, ram) =>
      let bootromEnabled := bootrom.isSome
      match bootrom with
      | some br =>
        if br.length != 0x100 then .error .InvalidBootRom
        else .ok { header, mapper, bootrom, bootromEnabled, rom, ram }
      | none => .ok { header, mapper, bootrom, bootromEnabled, rom, ram }

/-- `Cartridge::tick`. -/
def tick (c : Cartridge) : Cartridge := { c with mapper := c.mapper.tick }

/-- `Cartridge::disable_bootrom`. -/
def disableBootrom (c : Cartridge) : Cartridge := { c with bootromEnabled := false }

/-- `Cartridge::read_rom`: the boot ROM shadows addresses up to
`BOOTROM_END` (inclusive `0x100`, as in the source) while enabled. -/
def readRom (c : Cartridge) (address : Nat) : Option Nat :=
  match c.bootrom with
  | some bootrom =>
    if c.bootromEnabled && address ≤ 0x100 then bootrom.get? address
    else c.mapper.readRom c.rom address
  | none => c.mapper.readRom c.rom address

/-- `Cartridge::write_rom` (while the boot ROM is mapped, writes land in
the boot image; otherwise they are mapper register writes). -/
def writeRom (c : Cartridge) (address value : Nat) : Cartridge :=
  match c.bootrom with
  | some bootrom =>
    if c.bootromEnabled && address ≤ 0x100 then
      { c with bootrom := some (bootrom.set address value) }
    else { c with mapper := c.mapper.writeRom address value }
  | none => { c with mapper := c.mapper.writeRom address value }

/-- `Cartridge::read_ram`. -/
def readRam (c : Cartridge) (address : Nat) : Option Nat :=
  c.mapper.readRam c.ram address

/-- `Cartridge::write_ram`. -/
def writeRam (c : Cartridge) (address value : Nat) : Cartridge :=
  let (mapper, ram) := c.mapper.writeRam c.ram address value
  { c with mapper, ram }

end Cartridge

/-! ## `gameboy/apu.rs` — the audio processing unit -/

/-- `ChannelToggles` of `apu.rs` (one bit per channel). -/
structure ChannelToggles where
  ch1 : Bool
  ch2 : Bool
  ch3 : Bool
  ch4 : Bool
deriving Repr, DecidableEq

namespace ChannelToggles

/-- The all-false default. -/
def default : ChannelToggles := ⟨false, false, false, false⟩

/-- `ChannelToggles::value`. -/
def value (c : ChannelToggles) : Nat :=
  (b2n c.ch4 <<< 3) ||| (b2n c.ch3 <<< 2) ||| (b2n c.ch2 <<< 1) ||| b2n c.ch1

/-- `ChannelToggles::from_nibble`. -/
def fromNibble (nibble : Nat) : ChannelToggles :=
  { ch1 := nibble &&& 0b0001 != 0
    ch2 := nibble &&& 0b0010 != 0
    ch3 := nibble &&& 0b0100 != 0
    ch4 := nibble &&& 0b1000 != 0 }

end ChannelToggles

/-- `SoundEnable` of `apu.rs` (NR52 state). -/
structure SoundEnable where
  channels : ChannelToggles
  enableApu : Bool
deriving Repr, DecidableEq

namespace SoundEnable

/-- The default. -/
def default : SoundEnable := ⟨ChannelToggles.default, false⟩

/-- `SoundEnable::value` (NR52 read: power bit, unused bits set, status bits). -/
def value (s : SoundEnable) : Nat :=
  (b2n s.enableApu <<< 7) ||| 0x70 ||| s.channels.value

end SoundEnable

/-- `SoundPanning` of `apu.rs` (NR51 state). -/
structure SoundPanning where
  left : ChannelToggles
  right : ChannelToggles
deriving Repr, DecidableEq

namespace SoundPanning

/-- The default. -/
def default : SoundPanning := ⟨ChannelToggles.default, ChannelToggles.default⟩

/-- `SoundPanning::value`. -/
def value (s : SoundPanning) : Nat := (s.left.value <<< 4) ||| (s.right.value &&& 0xF)

/-- `SoundPanning::set_value`. -/
def setValue (_s : SoundPanning) (value : Nat) : SoundPanning :=
  ⟨ChannelToggles.fromNibble (value >>> 4), ChannelToggles.fromNibble (value &&& 0xF)⟩

end SoundPanning

/-- `MasterVolVinPan` of `apu.rs` (NR50 state). -/
structure MasterVolVinPan where
  leftVolume : Nat
  rightVolume : Nat
  mixVinLeft : Bool
  mixVinRight : Bool
deriving Repr, DecidableEq

namespace MasterVolVinPan

/-- The default. -/
def default : MasterVolVinPan := ⟨0, 0, false, false⟩

/-- `MasterVolVinPan::value`. -/
def value (m : MasterVolVinPan) : Nat :=
  (b2n m.mixVinLeft <<< 7) ||| ((m.leftVolume &&& 0b111) <<< 4)
    ||| (b2n m.mixVinRight <<< 3) ||| (m.rightVolume &&& 0b111)

/-- `MasterVolVinPan::set_value`. -/
def setValue (_m : MasterVolVinPan) (value : Nat) : MasterVolVinPan :=
  { mixVinLeft := value &&& 0x80 != 0
    leftVolume := (value >>> 4) &&& 0b111
    mixVinRight := value &&& 0b1000 != 0
    rightVolume := value &&& 0b111 }

end MasterVolVinPan

/-- The `SweepOp` enum of the channel-1 frequency sweep. -/
inductive SweepOp where
  | Increase
  | Decrease
deriving Repr, DecidableEq

/-- `Sweep` of `apu.rs` (NR10 state). -/
structure Sweep where
  pace : Nat
  op : SweepOp
  slopeCtrl : Nat
deriving Repr, DecidableEq

namespace Sweep

/-- The default. -/
def default : Sweep := ⟨0, .Increase, 0⟩

/-- `Sweep::value`. -/
def value (s : Sweep) : Nat :=
  0x80 ||| ((s.pace &&& 0b111) <<< 4)
    ||| ((match s.op with | .Increase => 0 | .Decrease => 1) <<< 3)
    ||| (s.slopeCtrl &&& 0b111)

/-- `Sweep::set_value`. -/
def setValue (_s : Sweep) (value : Nat) : Sweep :=
  { pace := (value >>> 4) &&& 0b111
    op := if value &&& 0b1000 == 0 then .Increase else .Decrease
    slopeCtrl := value &&& 0b111 }

end Sweep

/-- The `WaveDuty` enum (duty cycle selector). -/
inductive WaveDuty where
  | W0
  | W1
  | W2
  | W3
deriving Repr, DecidableEq

namespace WaveDuty

/-- The `as u8` discriminant. -/
def value : WaveDuty → Nat
  | .W0 => 0
  | .W1 => 1
  | .W2 => 2
  | .W3 => 3

/-- `WaveDuty::waveform` (the `WAVEFORMS` table). -/
def waveform : WaveDuty → List Bool
  | .W0 => [true, true, true, true, true, true, true, false]
  | .W1 => [false, true, true, true, true, true, true, false]
  | .W2 => [false, true, true, true, true, false, false, false]
  | .W3 => [true, false, false, false, false, false, false, true]

end WaveDuty

/-- `WaveDutyTimerLen` of `apu.rs` (NRx1 state of the pulse channels). -/
structure WaveDutyTimerLen where
  waveDuty : WaveDuty
  lenTimer : Nat
deriving Repr, DecidableEq

namespace WaveDutyTimerLen

/-- The default. -/
def default : WaveDutyTimerLen := ⟨.W0, 0⟩

/-- `WaveDutyTimerLen::value` (length bits read back set). -/
def value (w : WaveDutyTimerLen) : Nat := (w.waveDuty.value <<< 6) ||| 0b111111

/-- `WaveDutyTimerLen::set_value` (the length timer loads the complement
plus one). -/
def setValue (_w : WaveDutyTimerLen) (value : Nat) : WaveDutyTimerLen :=
  { waveDuty := match (value >>> 6) &&& 0b11 with
      | 0 => .W0
      | 1 => .W1
      | 2 => .W2
      | _ => .W3
    lenTimer := (((255 - u8 value)) &&& 0b111111) + 1 }

end WaveDutyTimerLen

/-- The `EnvelopeDir` enum. -/
inductive EnvelopeDir where
  | Decrease
  | Increase
deriving Repr, DecidableEq

/-- `VolumeEnvelope` of `apu.rs` (NRx2 state). -/
structure VolumeEnvelope where
  initial : Nat
  direction : EnvelopeDir
  pace : Nat
deriving Repr, DecidableEq

namespace VolumeEnvelope

/-- The default. -/
def default : VolumeEnvelope := ⟨0, .Decrease, 0⟩

/-- `VolumeEnvelope::value`. -/
def value (v : VolumeEnvelope) : Nat :=
  (v.initial <<< 4) ||| ((match v.direction with | .Decrease => 0 | .Increase => 1) <<< 3)
    ||| (v.pace &&& 0b111)

/-- `VolumeEnvelope::set_value`. -/
def setValue (_v : VolumeEnvelope) (value : Nat) : VolumeEnvelope :=
  { initial := value >>> 4
    direction := if value &&& 0b1000 == 0 then .Decrease else .Increase
    pace := value &&& 0b111 }

/-- `VolumeEnvelope::dac_enabled`: the top five bits of NRx2 nonzero. -/
def dacEnabled (v : VolumeEnvelope) : Bool :=
  v.initial != 0 || decide (v.direction ≠ .Decrease)

end VolumeEnvelope

/-- `WavelenCtrl` of `apu.rs` (NRx3/NRx4 state). -/
structure WavelenCtrl where
  trigger : Bool
  lenEnable : Bool
  wavelen : Nat
deriving Repr, DecidableEq

namespace WavelenCtrl

/-- The default. -/
def default : WavelenCtrl := ⟨false, false, 0⟩

/-- `WavelenCtrl::value_ctrl` (only the length-enable bit reads back). -/
def valueCtrl (w : WavelenCtrl) : Nat := (b2n w.lenEnable <<< 6) ||| 0b10111111

/-- `WavelenCtrl::set_value_wavelen_h_ctrl`. -/
def setValueWavelenHCtrl (w : WavelenCtrl) (value : Nat) : WavelenCtrl :=
  { trigger := value &&& 0x80 != 0
    lenEnable := value &&& 0b1000000 != 0
    wavelen := (w.wavelen &&& 0x00FF) ||| ((value &&& 0b111) <<< 8) }

/-- `WavelenCtrl::set_value_wavelen_l`. -/
def setValueWavelenL (w : WavelenCtrl) (value : Nat) : WavelenCtrl :=
  { w with wavelen := (w.wavelen &&& 0xFF00) ||| u8 value }

end WavelenCtrl

/-- `Channel1` of `apu.rs` (pulse with sweep). -/
structure Channel1 where
  cycles : Nat
  waveIdx : Nat
  volume : Nat
  sweep : Sweep
  waveDutyLenTimer : WaveDutyTimerLen
  volEnv : VolumeEnvelope
  wavelenCtrl : WavelenCtrl
deriving Repr, DecidableEq

namespace Channel1

/-- The default. -/
def default : Channel1 :=
  ⟨0, 0, 0, Sweep.default, WaveDutyTimerLen.default, VolumeEnvelope.default,
    WavelenCtrl.default⟩

/-- `Channel1::reset`: back to default except the length timer. -/
def reset (c : Channel1) : Channel1 :=
  { default with waveDutyLenTimer := { WaveDutyTimerLen.default with
      lenTimer := c.waveDutyLenTimer.lenTimer } }

end Channel1

/-- `Channel2` of `apu.rs` (pulse). -/
structure Channel2 where
  cycles : Nat
  waveIdx : Nat
  volume : Nat
  waveDutyLenTimer : WaveDutyTimerLen
  volEnv : VolumeEnvelope
  wavelenCtrl : WavelenCtrl
deriving Repr, DecidableEq

namespace Channel2

/-- The default. -/
def default : Channel2 :=
  ⟨0, 0, 0, WaveDutyTimerLen.default, VolumeEnvelope.default, WavelenCtrl.default⟩

/-- `Channel2::reset`: back to default except the length timer. -/
def reset (c : Channel2) : Channel2 :=
  { default with waveDutyLenTimer := { WaveDutyTimerLen.default with
      lenTimer := c.waveDutyLenTimer.lenTimer } }

end Channel2

/-- `Channel3` of `apu.rs` (wave). -/
structure Channel3 where
  dacEnable : Bool
  cycles : Nat
  lenTimer : Nat
  outLevel : Nat
  wavelenCtrl : WavelenCtrl
  wavePattern : List Nat
  wavePatternIndex : Nat
deriving Repr, DecidableEq

namespace Channel3

/-- The default. -/
def default : Channel3 :=
  ⟨false, 0, 0, 0, WavelenCtrl.default, List.replicate 16 0, 0⟩

/-- `Channel3::reset`: back to default except length timer and wave RAM. -/
def reset (c : Channel3) : Channel3 :=
  { default with lenTimer := c.lenTimer, wavePattern := c.wavePattern }

end Channel3

/-- The `LfsrWidth` enum of the noise channel. -/
inductive LfsrWidth where
  | B15
  | B7
deriving Repr, DecidableEq

/-- `FreqRand` of `apu.rs` (NR43 state). -/
structure FreqRand where
  clockShift : Nat
  lfsrWidth : LfsrWidth
  clockDiv : Nat
deriving Repr, DecidableEq

namespace FreqRand

/-- The default. -/
def default : FreqRand := ⟨0, .B15, 0⟩

/-- `FreqRand::value`. -/
def value (f : FreqRand) : Nat :=
  ((f.clockShift &&& 0b1111) <<< 4)
    ||| ((match f.lfsrWidth with | .B15 => 0 | .B7 => 1) <<< 3)
    ||| (f.clockDiv &&& 0b111)

/-- `FreqRand::set_value`. -/
def setValue (_f : FreqRand) (value : Nat) : FreqRand :=
  { clockShift := value >>> 4
    lfsrWidth := if value &&& 0b1000 == 0 then .B15 else .B7
    clockDiv := value &&& 0b111 }

end FreqRand

/-- `Channel4` of `apu.rs` (noise). -/
structure Channel4 where
  cycles : Nat
  lenTimer : Nat
  volume : Nat
  volEnv : VolumeEnvelope
  freqRand : FreqRand
  lfsr : Nat
  trigger : Bool
  lenEnable : Bool
deriving Repr, DecidableEq

namespace Channel4

/-- The default. -/
def default : Channel4 := ⟨0, 0, 0, VolumeEnvelope.default, FreqRand.default, 0, false, false⟩

/-- `Channel4::reset`: back to default except the length timer. -/
def reset (c : Channel4) : Channel4 := { default with lenTimer := c.lenTimer }

end Channel4

/-- `Apu` of `apu.rs`. -/
structure Apu where
  leftDeltas : List Int
  rightDeltas : List Int
  deltaOffsets : List Nat
  deltaOffset : Nat
  deltaCount : Nat
  masterVolVinPan : MasterVolVinPan
  soundPanning : SoundPanning
  soundEnable : SoundEnable
  ch1 : Channel1
  ch2 : Channel2
  ch3 : Channel3
  ch4 : Channel4
  div : Nat
  amplitudeLeft : Int
  amplitudeRight : Int
deriving Repr, DecidableEq

namespace Apu

/-- `Apu::new` (the derived default). -/
def new : Apu :=
  { leftDeltas := List.replicate 12 0, rightDeltas := List.replicate 12 0
    deltaOffsets := List.replicate 12 0, deltaOffset := 0, deltaCount := 0
    masterVolVinPan := MasterVolVinPan.default, soundPanning := SoundPanning.default
    soundEnable := SoundEnable.default, ch1 := Channel1.default, ch2 := Channel2.default
    ch3 := Channel3.default, ch4 := Channel4.default, div := 0
    amplitudeLeft := 0, amplitudeRight := 0 }

/-- `Apu::tick_len`: decrement an enabled, nonzero length timer, turning
the channel off when it reaches zero. Returns the new timer and channel
enable. -/
def tickLen (lenTimer : Nat) (lenEnable : Bool) (chEnable : Bool) : Nat × Bool :=
  if lenEnable && decide (lenTimer > 0) then
    let lenTimer := lenTimer - 1
    (lenTimer, if lenTimer == 0 then false else chEnable)
  else (lenTimer, chEnable)

/-- `Apu::inc_div`: one step of the frame sequencer ("DIV-APU"). When the
APU is powered: even phases advance the four length counters; phases that
are 0 mod 4 advance the channel-1 frequency sweep (gated by its pace);
phases that are 0 mod 8 advance the three envelopes (gated by their
paces); then the phase counter increments (wrapping `u8`). -/
def incDiv (a : Apu) : Apu :=
  if !a.soundEnable.enableApu then a
  else
    -- Tick sound length.
    let a :=
      if a.div &&& 0b1 == 0 then
        let (lt1, en1) := tickLen a.ch1.waveDutyLenTimer.lenTimer
          a.ch1.wavelenCtrl.lenEnable a.soundEnable.channels.ch1
        let (lt2, en2) := tickLen a.ch2.waveDutyLenTimer.lenTimer
          a.ch2.wavelenCtrl.lenEnable a.soundEnable.channels.ch2
        let (lt3, en3) := tickLen a.ch3.lenTimer
          a.ch3.wavelenCtrl.lenEnable a.soundEnable.channels.ch3
        let (lt4, en4) := tickLen a.ch4.lenTimer
          a.ch4.lenEnable a.soundEnable.channels.ch4
        { a with
          ch1 := { a.ch1 with waveDutyLenTimer := { a.ch1.waveDutyLenTimer with lenTimer := lt1 } }
          ch2 := { a.ch2 with waveDutyLenTimer := { a.ch2.waveDutyLenTimer with lenTimer := lt2 } }
          ch3 := { a.ch3 with lenTimer := lt3 }
          ch4 := { a.ch4 with lenTimer := lt4 }
          soundEnable := { a.soundEnable with
            channels := { ch1 := en1, ch2 := en2, ch3 := en3, ch4 := en4 } } }
      else a
    -- Tick channel 1 frequency sweep.
    let a :=
      if a.div &&& 0b11 == 0 then
        let pace := if a.ch1.sweep.pace != 0 then a.ch1.sweep.pace else 8
        if decide (a.ch1.wavelenCtrl.wavelen > 0) && (a.div >>> 2) % pace == 0 then
          let offset := a.ch1.wavelenCtrl.wavelen / 2 ^ a.ch1.sweep.slopeCtrl
          match a.ch1.sweep.op with
          | .Increase =>
            if a.ch1.wavelenCtrl.wavelen + offset ≥ 0x800 then
              { a with soundEnable := { a.soundEnable with
                  channels := { a.soundEnable.channels with ch1 := false } } }
            else
              { a with ch1 := { a.ch1 with wavelenCtrl := { a.ch1.wavelenCtrl with
                  wavelen := a.ch1.wavelenCtrl.wavelen + offset } } }
          | .Decrease =>
            if offset > a.ch1.wavelenCtrl.wavelen then
              { a with soundEnable := { a.soundEnable with
                  channels := { a.soundEnable.channels with ch1 := false } } }
            else
              { a with ch1 := { a.ch1 with wavelenCtrl := { a.ch1.wavelenCtrl with
                  wavelen := a.ch1.wavelenCtrl.wavelen - offset } } }
        else a
      else a
    -- Tick envelope sweep.
    let a :=
      if a.div &&& 0b111 == 0 then
        let tickEnv := fun (volEnv : VolumeEnvelope) (volume : Nat) =>
          if volEnv.pace != 0 && a.div % volEnv.pace == 0 then
            match volEnv.direction with
            | .Increase => Nat.max (u8 (volume + 1)) 0b1111
            | .Decrease => if volume > 0 then volume - 1 else volume
          else volume
        { a with
          ch1 := { a.ch1 with volume := tickEnv a.ch1.volEnv a.ch1.volume }
          ch2 := { a.ch2 with volume := tickEnv a.ch2.volEnv a.ch2.volume }
          ch4 := { a.ch4 with volume := tickEnv a.ch4.volEnv a.ch4.volume } }
      else a
    { a with div := (a.div + 1) % 256 }

/-- One iteration of the two-sample loop at the end of `Apu::tick`: the
channel-3 step, the panned and volume-scaled mix, and the delta append. -/
def tickSample (a : Apu) (ampCh1 ampCh2 ampCh4 : Int) : Apu :=
  let (a, ampCh3) :=
    if a.soundEnable.channels.ch3 then
      let c := { a.ch3 with cycles := u16 (a.ch3.cycles + 1) }
      let c :=
        if c.cycles == 0x800 then
          { c with cycles := c.wavelenCtrl.wavelen
                   wavePatternIndex := (c.wavePatternIndex + 1) % 32 }
        else c
      let index := c.wavePatternIndex / 2
      let highNibble := c.wavePatternIndex % 2 == 0
      let sample :=
        if highNibble then c.wavePattern.getD index 0 >>> 4
        else c.wavePattern.getD index 0 &&& 0b1111
      let sample := if c.outLevel == 0 then 0 else sample >>> (c.outLevel - 1)
      ({ a with ch3 := c }, -(sample : Int) + 8)
    else (a, 0)
  let l := a.soundPanning.left
  let r := a.soundPanning.right
  let amplitudeLeft :=
    ((if l.ch1 then ampCh1 else 0) + (if l.ch2 then ampCh2 else 0)
      + (if l.ch3 then ampCh3 else 0) + (if l.ch4 then ampCh4 else 0))
      * (a.masterVolVinPan.leftVolume : Int) * 64
  let deltaLeft := amplitudeLeft - a.amplitudeLeft
  let a := { a with amplitudeLeft }
  let amplitudeRight :=
    ((if r.ch1 then ampCh1 else 0) + (if r.ch2 then ampCh2 else 0)
      + (if r.ch3 then ampCh3 else 0) + (if r.ch4 then ampCh4 else 0))
      * (a.masterVolVinPan.rightVolume : Int) * 64
  let deltaRight := amplitudeRight - a.amplitudeRight
  let a := { a with amplitudeRight }
  let a :=
    if deltaLeft != 0 || deltaRight != 0 then
      { a with leftDeltas := a.leftDeltas.set a.deltaCount deltaLeft
               rightDeltas := a.rightDeltas.set a.deltaCount deltaRight
               deltaOffsets := a.deltaOffsets.set a.deltaCount a.deltaOffset
               deltaCount := a.deltaCount + 1 }
    else a
  { a with deltaOffset := a.deltaOffset + 2 }

/-- The channel-1 trigger block at the top of `Apu::tick` (retrigger on a
pending NRx4 trigger with an enabled DAC, with the extra length clock when
the frame-sequencer phase is odd). -/
def triggerCh1 (a : Apu) : Apu :=
  if a.ch1.volEnv.dacEnabled && a.ch1.wavelenCtrl.trigger then
    let c := { a.ch1 with
      wavelenCtrl := { a.ch1.wavelenCtrl with trigger := false }
      volume := a.ch1.volEnv.initial
      waveIdx := 0 }
    let c :=
      if c.waveDutyLenTimer.lenTimer == 0 then
        { c with waveDutyLenTimer := { c.waveDutyLenTimer with lenTimer := 0b1000000 } }
      else c
    let a := { a with ch1 := c, soundEnable := { a.soundEnable with
      channels := { a.soundEnable.channels with ch1 := true } } }
    if a.div &&& 1 == 1 then
      let (lt, en) := tickLen a.ch1.waveDutyLenTimer.lenTimer
        a.ch1.wavelenCtrl.lenEnable a.soundEnable.channels.ch1
      { a with
        ch1 := { a.ch1 with waveDutyLenTimer :=
          { a.ch1.waveDutyLenTimer with lenTimer := lt } }
        soundEnable := { a.soundEnable with
          channels := { a.soundEnable.channels with ch1 := en } } }
    else a
  else a

/-- The channel-2 trigger block of `Apu::tick`. -/
def triggerCh2 (a : Apu) : Apu :=
  if a.ch2.volEnv.dacEnabled && a.ch2.wavelenCtrl.trigger then
    let c := { a.ch2 with
      wavelenCtrl := { a.ch2.wavelenCtrl with trigger := false }
      volume := a.ch2.volEnv.initial
      waveIdx := 0 }
    let c :=
      if c.waveDutyLenTimer.lenTimer == 0 then
        { c with waveDutyLenTimer := { c.waveDutyLenTimer with lenTimer := 0b1000000 } }
      else c
    let a := { a with ch2 := c, soundEnable := { a.soundEnable with
      channels := { a.soundEnable.channels with ch2 := true } } }
    if a.div &&& 0b1 == 1 then
      let (lt, en) := tickLen a.ch2.waveDutyLenTimer.lenTimer
        a.ch2.wavelenCtrl.lenEnable a.soundEnable.channels.ch2
      { a with
        ch2 := { a.ch2 with waveDutyLenTimer :=
          { a.ch2.waveDutyLenTimer with lenTimer := lt } }
        soundEnable := { a.soundEnable with
          channels := { a.soundEnable.channels with ch2 := en } } }
    else a
  else a

/-- The channel-3 trigger block of `Apu::tick`. -/
def triggerCh3 (a : Apu) : Apu :=
  if a.ch3.dacEnable && a.ch3.wavelenCtrl.trigger then
    let c := { a.ch3 with
      wavelenCtrl := { a.ch3.wavelenCtrl with trigger := false }
      wavePatternIndex := 0 }
    let c := if c.lenTimer == 0 then { c with lenTimer := 0x100 } else c
    let a := { a with ch3 := c, soundEnable := { a.soundEnable with
      channels := { a.soundEnable.channels with ch3 := true } } }
    if a.div &&& 0b1 == 1 then
      let (lt, en) := tickLen a.ch3.lenTimer
        a.ch3.wavelenCtrl.lenEnable a.soundEnable.channels.ch3
      { a with
        ch3 := { a.ch3 with lenTimer := lt }
        soundEnable := { a.soundEnable with
          channels := { a.soundEnable.channels with ch3 := en } } }
    else a
  else a

/-- The channel-4 trigger block of `Apu::tick`. -/
def triggerCh4 (a : Apu) : Apu :=
  if a.ch4.volEnv.dacEnabled && a.ch4.trigger then
    let c := { a.ch4 with
      trigger := false
      volume := a.ch4.volEnv.initial
      lfsr := 0
      cycles := 0 }
    let c := if c.lenTimer == 0 then { c with lenTimer := 0b1000000 } else c
    let a := { a with ch4 := c, soundEnable := { a.soundEnable with
      channels := { a.soundEnable.channels with ch4 := true } } }
    if a.div &&& 0b1 == 1 then
      let (lt, en) := tickLen a.ch4.lenTimer a.ch4.lenEnable a.soundEnable.channels.ch4
      { a with
        ch4 := { a.ch4 with lenTimer := lt }
        soundEnable := { a.soundEnable with
          channels := { a.soundEnable.channels with ch4 := en } } }
    else a
  else a

/-- The `amp_ch1` block of `Apu::tick`: advance the channel-1 waveform
step and compute its amplitude. -/
def ampCh1 (a : Apu) : Apu × Int :=
  if a.soundEnable.channels.ch1 then
    let c := { a.ch1 with cycles := u16 (a.ch1.cycles + 1) }
    let c :=
      if c.cycles == 0x800 then
        { c with cycles := c.wavelenCtrl.wavelen, waveIdx := (c.waveIdx + 1) % 8 }
      else c
    let val : Int :=
      if c.waveDutyLenTimer.waveDuty.waveform.getD c.waveIdx false then (c.volume : Int)
      else 0
    ({ a with ch1 := c }, -val + 8)
  else (a, 0)

/-- The `amp_ch2` block of `Apu::tick`. -/
def ampCh2 (a : Apu) : Apu × Int :=
  if a.soundEnable.channels.ch2 then
    let c := { a.ch2 with cycles := u16 (a.ch2.cycles + 1) }
    let c :=
      if c.cycles == 0x800 then
        { c with cycles := c.wavelenCtrl.wavelen, waveIdx := (c.waveIdx + 1) % 8 }
      else c
    let val : Int :=
      if c.waveDutyLenTimer.waveDuty.waveform.getD c.waveIdx false then (c.volume : Int)
      else 0
    ({ a with ch2 := c }, -val + 8)
  else (a, 0)

/-- The `amp_ch4` block of `Apu::tick`: the LFSR step of the noise
channel and its amplitude. -/
def ampCh4 (a : Apu) : Apu × Int :=
  if a.soundEnable.channels.ch4 then
    let c := { a.ch4 with cycles := a.ch4.cycles + 4 }
    let clockFactor :=
      if c.freqRand.clockDiv == 0 then 16 * (1 <<< c.freqRand.clockShift) / 2
      else 16 * c.freqRand.clockDiv * (1 <<< c.freqRand.clockShift)
    let c :=
      if c.cycles % clockFactor == 0 then
        let c := { c with cycles := 0 }
        let b0 := c.lfsr &&& 1
        let b1 := (c.lfsr >>> 1) &&& 1
        let res := (b0 ^^^ b1) ^^^ 1
        let lfsr := (c.lfsr &&& (0xFFFF ^^^ (1 <<< 15))) ||| (res <<< 15)
        let lfsr := match c.freqRand.lfsrWidth with
          | .B7 => (lfsr &&& (0xFFFF ^^^ (1 <<< 7))) ||| (res <<< 7)
          | .B15 => lfsr
        { c with lfsr := lfsr >>> 1 }
      else c
    let val : Int := if c.lfsr &&& 1 != 0 then (c.volume : Int) else 0
    ({ a with ch4 := c }, -val + 8)
  else (a, 0)

/-- `Apu::tick`: drop unfetched samples, handle channel triggers (with the
extra length clock on odd frame-sequencer phases), advance the pulse and
noise channel generators, and emit two internal samples' deltas. -/
def tick (a : Apu) : Apu :=
  -- Cpu::MAX_TICKS_PER_INSTR * 2 = 48.
  let a :=
    if a.deltaOffset ≥ 48 then { a with deltaCount := 0, deltaOffset := 0 }
    else a
  if !a.soundEnable.enableApu then a
  else
    let a := triggerCh4 (triggerCh3 (triggerCh2 (triggerCh1 a)))
    let (a, amp1) := ampCh1 a
    let (a, amp2) := ampCh2 a
    let (a, amp4) := ampCh4 a
    tickSample (tickSample a amp1 amp2 amp4) amp1 amp2 amp4

/-- `Apu::read` of the APU register file `FF10..FF3F`. -/
def read (a : Apu) (address : Nat) : Nat :=
  if address == 0xFF10 then a.ch1.sweep.value
  else if address == 0xFF11 then a.ch1.waveDutyLenTimer.value
  else if address == 0xFF12 then a.ch1.volEnv.value
  else if address == 0xFF13 then 0xFF
  else if address == 0xFF14 then a.ch1.wavelenCtrl.valueCtrl
  else if address == 0xFF15 then 0xFF
  else if address == 0xFF16 then a.ch2.waveDutyLenTimer.value
  else if address == 0xFF17 then a.ch2.volEnv.value
  else if address == 0xFF18 then 0xFF
  else if address == 0xFF19 then a.ch2.wavelenCtrl.valueCtrl
  else if address == 0xFF1A then (b2n a.ch3.dacEnable <<< 7) ||| 0b1111111
  else if address == 0xFF1B then 0xFF
  else if address == 0xFF1C then 0b10011111 ||| ((a.ch3.outLevel &&& 0b11) <<< 5)
  else if address == 0xFF1D then 0xFF
  else if address == 0xFF1E then a.ch3.wavelenCtrl.valueCtrl
  else if address == 0xFF1F then 0xFF
  else if address == 0xFF20 then 0xFF
  else if address == 0xFF21 then a.ch4.volEnv.value
  else if address == 0xFF22 then a.ch4.freqRand.value
  else if address == 0xFF23 then 0b10111111 ||| (b2n a.ch4.lenEnable <<< 6)
  else if address == 0xFF24 then a.masterVolVinPan.value
  else if address == 0xFF25 then a.soundPanning.value
  else if address == 0xFF26 then a.soundEnable.value
  else if 0xFF27 ≤ address ∧ address ≤ 0xFF2F then 0xFF
  else if 0xFF30 ≤ address ∧ address ≤ 0xFF3F then a.ch3.wavePattern.getD (address &&& 0xF) 0
  else 0xFF

/-- `Apu::write` of the APU register file `FF10..FF3F`: ignored while
powered off except NR52 and wave RAM; NR52 power-off resets everything
except wave RAM and the length timers. -/
def write (a : Apu) (address value : Nat) : Apu :=
  if !a.soundEnable.enableApu && address != 0xFF26
      && !(0xFF30 ≤ address && address ≤ 0xFF3F) then a
  else if address == 0xFF10 then { a with ch1 := { a.ch1 with sweep := a.ch1.sweep.setValue value } }
  else if address == 0xFF12 then
    let c := { a.ch1 with volEnv := a.ch1.volEnv.setValue value }
    let a := { a with ch1 := c }
    if !c.volEnv.dacEnabled then
      { a with soundEnable := { a.soundEnable with
          channels := { a.soundEnable.channels with ch1 := false } } }
    else a
  else if address == 0xFF11 then
    { a with ch1 := { a.ch1 with waveDutyLenTimer := a.ch1.waveDutyLenTimer.setValue value } }
  else if address == 0xFF13 then
    { a with ch1 := { a.ch1 with wavelenCtrl := a.ch1.wavelenCtrl.setValueWavelenL value } }
  else if address == 0xFF14 then
    { a with ch1 := { a.ch1 with wavelenCtrl := a.ch1.wavelenCtrl.setValueWavelenHCtrl value } }
  else if address == 0xFF15 then a
  else if address == 0xFF17 then
    let c := { a.ch2 with volEnv := a.ch2.volEnv.setValue value }
    let a := { a with ch2 := c }
    if !c.volEnv.dacEnabled then
      { a with soundEnable := { a.soundEnable with
          channels := { a.soundEnable.channels with ch2 := false } } }
    else a
  else if address == 0xFF16 then
    { a with ch2 := { a.ch2 with waveDutyLenTimer := a.ch2.waveDutyLenTimer.setValue value } }
  else if address == 0xFF18 then
    { a with ch2 := { a.ch2 with wavelenCtrl := a.ch2.wavelenCtrl.setValueWavelenL value } }
  else if address == 0xFF19 then
    { a with ch2 := { a.ch2 with wavelenCtrl := a.ch2.wavelenCtrl.setValueWavelenHCtrl value } }
  else if address == 0xFF1A then
    let c := { a.ch3 with dacEnable := value &&& 0x80 != 0 }
    let a := { a with ch3 := c }
    if !c.dacEnable then
      { a with soundEnable := { a.soundEnable with
          channels := { a.soundEnable.channels with ch3 := false } } }
    else a
  else if address == 0xFF1B then { a with ch3 := { a.ch3 with lenTimer := (255 - u8 value) + 1 } }
  else if address == 0xFF1C then { a with ch3 := { a.ch3 with outLevel := (value >>> 5) &&& 0b11 } }
  else if address == 0xFF1D then
    { a with ch3 := { a.ch3 with wavelenCtrl := a.ch3.wavelenCtrl.setValueWavelenL value } }
  else if address == 0xFF1E then
    { a with ch3 := { a.ch3 with wavelenCtrl := a.ch3.wavelenCtrl.setValueWavelenHCtrl value } }
  else if 0xFF30 ≤ address ∧ address ≤ 0xFF3F then
    { a with ch3 := { a.ch3 with wavePattern := a.ch3.wavePattern.set (address &&& 0xF) value } }
  else if address == 0xFF1F then a
  else if address == 0xFF20 then
    { a with ch4 := { a.ch4 with lenTimer := (((255 - u8 value)) &&& 0b111111) + 1 } }
  else if address == 0xFF21 then
    let c := { a.ch4 with volEnv := a.ch4.volEnv.setValue value }
    let a := { a with ch4 := c }
    if !c.volEnv.dacEnabled then
      { a with soundEnable := { a.soundEnable with
          channels := { a.soundEnable.channels with ch4 := false } } }
    else a
  else if address == 0xFF22 then
    { a with ch4 := { a.ch4 with freqRand := a.ch4.freqRand.setValue value } }
  else if address == 0xFF23 then
    { a with ch4 := { a.ch4 with trigger := value &&& 0x80 != 0
                                 lenEnable := value &&& 0b1000000 != 0 } }
  else if address == 0xFF24 then
    { a with masterVolVinPan := a.masterVolVinPan.setValue value }
  else if address == 0xFF25 then { a with soundPanning := a.soundPanning.setValue value }
  else if address == 0xFF26 then
    let a := { a with soundEnable := { a.soundEnable with enableApu := value >>> 7 != 0 } }
    if !a.soundEnable.enableApu then
      { a with div := 0, ch1 := a.ch1.reset, ch2 := a.ch2.reset, ch3 := a.ch3.reset
               ch4 := a.ch4.reset
               soundEnable := { a.soundEnable with channels := ChannelToggles.default }
               masterVolVinPan := MasterVolVinPan.default
               soundPanning := SoundPanning.default }
    else a
  else a

end Apu

/-! ## `gameboy/ppu/palette.rs` -/

/-- The `Color` enum of `ppu/palette.rs` (the four DMG shades). -/
inductive Color where
  | White
  | LightGray
  | DarkGray
  | Black
deriving Repr, DecidableEq

/-- The `as u8` discriminant of a `Color`. -/
def Color.value : Color → Nat
  | .White => 0
  | .LightGray => 1
  | .DarkGray => 2
  | .Black => 3

/-- `Color::try_from(u8)` restricted to the in-range values (out-of-range
values are unreachable from `Palette::set_value`, which masks to two
bits). -/
def Color.fromValue (v : Nat) : Color :=
  if v == 0 then .White
  else if v == 1 then .LightGray
  else if v == 2 then .DarkGray
  else .Black

/-- `Palette` of `ppu/palette.rs` (four shades in one byte). -/
structure Palette where
  c0 : Color
  c1 : Color
  c2 : Color
  c3 : Color
deriving Repr, DecidableEq

namespace Palette

/-- `Palette::new` (also the derived default: all white). -/
def new : Palette := ⟨.White, .White, .White, .White⟩

/-- `Palette::value`. -/
def value (p : Palette) : Nat :=
  p.c0.value ||| (p.c1.value <<< 2) ||| (p.c2.value <<< 4) ||| (p.c3.value <<< 6)

/-- `Palette::set_value`. -/
def setValue (_p : Palette) (value : Nat) : Palette :=
  ⟨Color.fromValue (value &&& 0b11), Color.fromValue ((value >>> 2) &&& 0b11),
    Color.fromValue ((value >>> 4) &&& 0b11), Color.fromValue ((value >>> 6) &&& 0b11)⟩

/-- Indexing a palette by a 2-bit color index (the `palettes.bg[index]`
uses in `pixel_transfer.rs`; indices above 3 are unreachable). -/
def get (p : Palette) (i : Nat) : Color :=
  if i == 0 then p.c0 else if i == 1 then p.c1 else if i == 2 then p.c2 else p.c3

end Palette

/-! ## `gameboy/ppu/obj.rs` -/

namespace Obj

/-- The OBJ palette selector (`obj::Palette`). -/
inductive ObjPalette where
  | ObjP0
  | ObjP1
deriving Repr, DecidableEq

/-- The OBJ priority (`obj::Priority`). -/
inductive Priority where
  | BehindNonZeroBg
  | AboveBg
deriving Repr, DecidableEq

/-- `obj::Attributes`: one parsed OAM entry. -/
structure Attributes where
  x : Nat
  y : Nat
  tileIndex : Nat
  flipX : Bool
  flipY : Bool
  priority : Priority
  palette : ObjPalette
deriving Repr, DecidableEq

/-- `Attributes::parse` of the four OAM bytes. -/
def Attributes.parse (v0 v1 v2 v3 : Nat) : Attributes :=
  { y := v0, x := v1, tileIndex := v2
    priority := if v3 &&& 0x80 == 0 then .AboveBg else .BehindNonZeroBg
    flipY := v3 &&& 0b1000000 != 0
    flipX := v3 &&& 0b100000 != 0
    palette := if v3 &&& 0b10000 == 0 then .ObjP0 else .ObjP1 }

/-- An all-zero attribute entry (used as the unreachable `getD` default). -/
def Attributes.zero : Attributes := Attributes.parse 0 0 0 0

end Obj

/-! ## `gameboy/ppu/lcd_control.rs` -/

/-- The `TileMapRange` enum (which 32x32 tile map). -/
inductive TileMapRange where
  | Low
  | High
deriving Repr, DecidableEq

/-- `TileMapRange::base_address` (VRAM-relative). -/
def TileMapRange.baseAddress : TileMapRange → Nat
  | .Low => 0x1800
  | .High => 0x1C00

/-- The `TileDataAddressing` enum (unsigned `0x8000` vs signed `0x9000`
tile data indexing). -/
inductive TileDataAddressing where
  | Signed
  | Unsigned
deriving Repr, DecidableEq

namespace TileDataAddressing

/-- `TileDataAddressing::address_from_index_bg` (VRAM-relative; the signed
mode re-interprets the index as `i8` around `0x1000`). -/
def addressFromIndexBg (t : TileDataAddressing) (index : Nat) (line : Nat) : Nat :=
  match t with
  | .Unsigned => index * 16 + line % 8 * 2
  | .Signed => u16 (0x1000 + u16i (i8 index * 16)) + line % 8 * 2

/-- The `SpriteSize` enum height is needed below; see `SpriteSize`. -/
def addressFromIndexObj (t : TileDataAddressing) (index : Nat) (line : Nat)
    (height : Nat) : Nat :=
  match t with
  | .Unsigned => index * 16 + line % height * 2
  | .Signed => u16 (0x1000 + u16i (i8 index * 16)) + line % height * 2

end TileDataAddressing

/-- The `SpriteSize` enum. -/
inductive SpriteSize where
  | S8x8
  | S8x16
deriving Repr, DecidableEq

/-- `SpriteSize::height`. -/
def SpriteSize.height : SpriteSize → Nat
  | .S8x8 => 8
  | .S8x16 => 16

/-- `LcdControl` of `ppu/lcd_control.rs` (the LCDC register). -/
structure LcdControl where
  lcdEnable : Bool
  windowTileMap : TileMapRange
  windowEnable : Bool
  bgWindowAddressing : TileDataAddressing
  bgTileMap : TileMapRange
  objSize : SpriteSize
  objEnable : Bool
  bgWindowEnable : Bool
deriving Repr, DecidableEq

namespace LcdControl

/-- `LcdControl::new`. -/
def new : LcdControl :=
  { lcdEnable := false, windowTileMap := .Low, windowEnable := false
    bgWindowAddressing := .Unsigned, bgTileMap := .Low, objSize := .S8x8
    objEnable := false, bgWindowEnable := false }

/-- `LcdControl::value`. -/
def value (l : LcdControl) : Nat :=
  (b2n l.lcdEnable <<< 7)
    ||| ((match l.windowTileMap with | .Low => 0 | .High => 1) <<< 6)
    ||| (b2n l.windowEnable <<< 5)
    ||| ((match l.bgWindowAddressing with | .Signed => 0 | .Unsigned => 1) <<< 4)
    ||| ((match l.bgTileMap with | .Low => 0 | .High => 1) <<< 3)
    ||| ((match l.objSize with | .S8x8 => 0 | .S8x16 => 1) <<< 2)
    ||| (b2n l.objEnable <<< 1)
    ||| b2n l.bgWindowEnable

/-- `LcdControl::set_value`. -/
def setValue (_l : LcdControl) (value : Nat) : LcdControl :=
  { lcdEnable := value &&& 0x80 != 0
    windowTileMap := if value &&& 0x40 == 0 then .Low else .High
    windowEnable := value &&& 0x20 != 0
    bgWindowAddressing := if value &&& 0x10 == 0 then .Signed else .Unsigned
    bgTileMap := if value &&& 0x08 == 0 then .Low else .High
    objSize := if value &&& 0x04 == 0 then .S8x8 else .S8x16
    objEnable := value &&& 0x02 != 0
    bgWindowEnable := value &&& 0x01 != 0 }

end LcdControl

/-! ## `gameboy/ppu/lcd_status.rs` -/

/-- The PPU `Mode` enum. -/
inductive Mode where
  | HBlank
  | VBlank
  | OamSearch
  | PixelTransfer
deriving Repr, DecidableEq

/-- The `as u8` discriminant of a `Mode` (STAT bits 1..0). -/
def Mode.value : Mode → Nat
  | .HBlank => 0
  | .VBlank => 1
  | .OamSearch => 2
  | .PixelTransfer => 3

/-- `LcdStatus` of `ppu/lcd_status.rs` (the STAT register state). -/
structure LcdStatus where
  coincidenceInterruptEnabled : Bool
  oamInterruptEnabled : Bool
  vblankInterruptEnabled : Bool
  hblankInterruptEnabled : Bool
  lycCoincidence : Bool
  mode : Mode
deriving Repr, DecidableEq

namespace LcdStatus

/-- `LcdStatus::new`: mode OAM search, everything else default. -/
def new : LcdStatus := ⟨false, false, false, false, false, .OamSearch⟩

/-- `LcdStatus::value`: the STAT read. Bit 7 reads set, bits 6..3 are the
four interrupt enables, bits 1..0 the mode. (The `lyc_coincidence` field
is not placed in the returned byte.) -/
def value (s : LcdStatus) : Nat :=
  (1 <<< 7)
    ||| (b2n s.coincidenceInterruptEnabled <<< 6)
    ||| (b2n s.oamInterruptEnabled <<< 5)
    ||| (b2n s.vblankInterruptEnabled <<< 4)
    ||| (b2n s.hblankInterruptEnabled <<< 3)
    ||| s.mode.value

/-- `LcdStatus::set_value`: only the four enable bits are writable. -/
def setValue (s : LcdStatus) (value : Nat) : LcdStatus :=
  { s with
    coincidenceInterruptEnabled := value &&& (1 <<< 6) != 0
    oamInterruptEnabled := value &&& (1 <<< 5) != 0
    vblankInterruptEnabled := value &&& (1 <<< 4) != 0
    hblankInterruptEnabled := value &&& (1 <<< 3) != 0 }

end LcdStatus

/-! ## `gameboy/ppu/pixel_transfer.rs` — FIFOs and the fetcher -/

/-- `BgPixel`. -/
structure BgPixel where
  index : Nat
deriving Repr, DecidableEq

/-- `ObjPixel`. -/
structure ObjPixel where
  index : Nat
  palette : Obj.ObjPalette
  priority : Obj.Priority
deriving Repr, DecidableEq

/-- The transparent OBJ pixel used to pad the sprite FIFO. -/
def ObjPixel.transparent : ObjPixel := ⟨0, .ObjP0, .BehindNonZeroBg⟩

instance : Inhabited BgPixel := ⟨⟨0⟩⟩

instance : Inhabited ObjPixel := ⟨ObjPixel.transparent⟩

/-- `PixelFifo<T>`: an 8-slot ring buffer. -/
structure PixelFifo (α : Type) where
  fifo : List α
  start : Nat
  size : Nat
deriving Repr, DecidableEq

namespace PixelFifo

/-- `PixelFifo::new` (slots filled with the element default). -/
def new (d : α) : PixelFifo α := ⟨List.replicate 8 d, 0, 0⟩

/-- `PixelFifo::pop`. -/
def pop (f : PixelFifo α) [Inhabited α] : PixelFifo α × Option α :=
  if f.size > 0 then
    ({ f with start := (f.start + 1) % 8, size := f.size - 1 }, some (f.fifo.getD f.start default))
  else (f, none)

/-- `PixelFifo::clear`. -/
def clear (f : PixelFifo α) : PixelFifo α := { f with start := 0, size := 0 }

/-- `PixelFifo::<ObjPixel>::push_line`: pad the free slots with
transparent pixels, then merge the new line, keeping existing
non-transparent pixels. Always succeeds. -/
def pushLineObj (f : PixelFifo ObjPixel) (pixels : List ObjPixel) :
    PixelFifo ObjPixel × Bool :=
  let fifo := (List.range 8).foldl
    (fun fifo i =>
      if f.size ≤ i then fifo.set ((f.start + i) % 8) ObjPixel.transparent else fifo)
    f.fifo
  let fifo := (List.range 8).foldl
    (fun fifo i =>
      let newPixel := pixels.getD i ObjPixel.transparent
      let pixel := fifo.getD ((f.start + i) % 8) ObjPixel.transparent
      if pixel.index == 0 && newPixel.index > 0 then
        fifo.set ((f.start + i) % 8) newPixel
      else fifo)
    fifo
  ({ f with fifo, size := 8 }, true)

/-- `PixelFifo::<BgPixel>::push_line`: refill only when empty. -/
def pushLineBg (f : PixelFifo BgPixel) (pixels : List BgPixel) : PixelFifo BgPixel × Bool :=
  if f.size == 0 then
    let fifo := (List.range 8).foldl
      (fun fifo i => fifo.set ((f.start + f.size + i) % 8) (pixels.getD i ⟨0⟩))
      f.fifo
    ({ f with fifo, size := f.size + 8 }, true)
  else (f, false)

end PixelFifo

/-- The fetcher `Action` state machine of `pixel_transfer.rs`. -/
inductive FetchAction where
  | ObjReadAttr (prevIndex : Option Nat)
  | ObjReadDataL (attrIndex : Nat)
  | ObjReadDataH (dataAddress : Nat) (dataL : Nat) (attrIndex : Nat)
  | ObjWait (pixels : List ObjPixel) (attrIndex : Nat)
  | BgReadStartTile
  | BgReadStartDataL
  | BgReadStartDataH
  | BgReadTile
  | BgReadDataL (tileIndex : Nat)
  | BgReadDataH (dataAddress : Nat) (dataL : Nat)
  | BgWait (pixels : List BgPixel)
deriving Repr, DecidableEq

/-- `Action::pending_obj`. -/
def FetchAction.pendingObj : FetchAction → Bool
  | .ObjReadAttr _ => true
  | .ObjReadDataL _ => true
  | .ObjReadDataH _ _ _ => true
  | .ObjWait _ _ => true
  | _ => false

/-- `Fetcher` of `pixel_transfer.rs`. -/
structure Fetcher where
  action : FetchAction
  waitingCycle : Bool
  tileMapIndex : Nat
deriving Repr, DecidableEq

namespace Fetcher

/-- `Fetcher::new`. -/
def new : Fetcher := ⟨.BgReadStartTile, false, 0⟩

/-- `Fetcher::start_line` (keeps the wait-cycle phase). -/
def startLine (f : Fetcher) : Fetcher :=
  { action := .BgReadStartTile, waitingCycle := f.waitingCycle, tileMapIndex := 0 }

/-- `Fetcher::start_window` (keeps the wait-cycle phase, skips the warmup
states). -/
def startWindow (f : Fetcher) : Fetcher :=
  { action := .BgReadTile, waitingCycle := f.waitingCycle, tileMapIndex := 0 }

/-- `Fetcher::unpack_indices`: interleave a tile's two data bytes into
eight 2-bit color indices, most significant bit first. -/
def unpackIndices (dataL dataH : Nat) : List Nat :=
  (List.range 8).map (fun j =>
    (((dataH >>> (7 - j)) <<< 1) &&& 0b10) ||| ((dataL >>> (7 - j)) &&& 0b01))

/-- Reversal of the eight bits of a byte (`u8::reverse_bits`). -/
def reverseBits8 (n : Nat) : Nat :=
  (List.range 8).foldl (fun acc i => acc ||| (((n >>> i) &&& 1) <<< (7 - i))) 0

/-- The `check_for_obj` closure of `Fetcher::tick`: the first visible
object at the current X after an optional previous index. -/
def checkForObj (visibleObjs : List Obj.Attributes) (xPos : Nat)
    (lastChecked : Option Nat) : Option Nat :=
  let start := match lastChecked with
    | some idx => idx + 1
    | none => 0
  ((List.range visibleObjs.length).drop start).find? (fun i =>
    match visibleObjs.get? i with
    | some o => o.x == xPos
    | none => false)

/-- One `Fetcher::tick`. Modelled from the spec at one seam: the
`pixel_transfer.rs` revision under `src/` still takes `window_x`/
`window_y` while its caller in `ppu/mod.rs` passes `window_triggered` and
the internal window line counter `line_y_window`; following the spec's
window-activation description (§4.3), the window branch here is taken
exactly when the caller has triggered the window, and the window rows use
the internal window-line counter. Everything else follows
`pixel_transfer.rs` (with `address_from_index` as the two-argument
`address_from_index_bg` of `lcd_control.rs`). Returns the fetcher, both
FIFOs and the `pending_obj` flag. -/
def tick (f : Fetcher) (bgFifo : PixelFifo BgPixel) (objFifo : PixelFifo ObjPixel)
    (visibleObjs : List Obj.Attributes) (lcdc : LcdControl) (xPos lineY scrollX scrollY : Nat)
    (vram : List Nat) (windowTriggered : Bool) (lineYWindow : Nat) :
    Fetcher × PixelFifo BgPixel × PixelFifo ObjPixel × Bool :=
  let waiting := f.waitingCycle
  let f := { f with waitingCycle := !f.waitingCycle }
  if waiting then (f, bgFifo, objFifo, f.action.pendingObj)
  else
    let inWindow := windowTriggered
    let bgWLine := if inWindow then lineYWindow % 256 else (lineY + scrollY) % 256
    let afterBgPush := fun (f : Fetcher) (pushed : Bool) (pixels : List BgPixel) =>
      if pushed then
        if (checkForObj visibleObjs xPos none).isSome then
          { f with action := .ObjReadAttr none }
        else { f with action := .BgReadTile }
      else { f with action := .BgWait pixels }
    let afterObjPush := fun (f : Fetcher) (attrIndex : Nat) =>
      if (checkForObj visibleObjs xPos (some attrIndex)).isSome then
        { f with action := .ObjReadAttr (some attrIndex) }
      else { f with action := .BgReadTile }
    let result :=
      match f.action with
      | .ObjReadAttr prevIndex =>
        let attrIndex := (checkForObj visibleObjs xPos prevIndex).getD 0
        ({ f with action := .ObjReadDataL attrIndex }, bgFifo, objFifo)
      | .ObjReadDataL attrIndex =>
        let obj := visibleObjs.getD attrIndex Obj.Attributes.zero
        let lv := u8 (u8 (lineY + 16) + 256 - obj.y)
        let line := if obj.flipY then u16 (7 + 0x10000 - lv) else lv
        let dataAddress := TileDataAddressing.Unsigned.addressFromIndexBg obj.tileIndex line
        let dataL := vram.getD dataAddress 0
        let dataL := if obj.flipX then reverseBits8 dataL else dataL
        ({ f with action := .ObjReadDataH dataAddress dataL attrIndex }, bgFifo, objFifo)
      | .ObjReadDataH dataAddress dataL attrIndex =>
        let obj := visibleObjs.getD attrIndex Obj.Attributes.zero
        let dataH := vram.getD (dataAddress + 1) 0
        let dataH := if obj.flipX then reverseBits8 dataH else dataH
        let pixels := (unpackIndices dataL dataH).map (fun index =>
          ObjPixel.mk index obj.palette obj.priority)
        let (objFifo, pushed) := objFifo.pushLineObj pixels
        if pushed then (afterObjPush f attrIndex, bgFifo, objFifo)
        else ({ f with action := .ObjWait pixels attrIndex }, bgFifo, objFifo)
      | .ObjWait pixels attrIndex =>
        let (objFifo, pushed) := objFifo.pushLineObj pixels
        if pushed then (afterObjPush f attrIndex, bgFifo, objFifo)
        else (f, bgFifo, objFifo)
      | .BgReadStartTile => ({ f with action := .BgReadStartDataL }, bgFifo, objFifo)
      | .BgReadStartDataL => ({ f with action := .BgReadStartDataH }, bgFifo, objFifo)
      | .BgReadStartDataH =>
        let pixels := List.replicate 8 (BgPixel.mk 0)
        let (bgFifo, pushed) := bgFifo.pushLineBg pixels
        (afterBgPush f pushed pixels, bgFifo, objFifo)
      | .BgReadTile =>
        let tm := if inWindow then (lcdc.windowTileMap, 0) else (lcdc.bgTileMap, scrollX / 8)
        let tileMapIndex := (f.tileMapIndex + tm.2) % 32
        let tileIndex := vram.getD (tm.1.baseAddress + bgWLine / 8 * 32 + tileMapIndex) 0
        ({ f with action := .BgReadDataL tileIndex
                  tileMapIndex := (f.tileMapIndex + 1) % 32 }, bgFifo, objFifo)
      | .BgReadDataL tileIndex =>
        let dataAddress := lcdc.bgWindowAddressing.addressFromIndexBg tileIndex bgWLine
        ({ f with action := .BgReadDataH dataAddress (vram.getD dataAddress 0) },
          bgFifo, objFifo)
      | .BgReadDataH dataAddress dataL =>
        let dataH := vram.getD (dataAddress + 1) 0
        let pixels := (unpackIndices dataL dataH).map BgPixel.mk
        let (bgFifo, pushed) := bgFifo.pushLineBg pixels
        (afterBgPush f pushed pixels, bgFifo, objFifo)
      | .BgWait pixels =>
        let (bgFifo, pushed) := bgFifo.pushLineBg pixels
        if pushed then (afterBgPush f true pixels, bgFifo, objFifo)
        else (f, bgFifo, objFifo)
    (result.1, result.2.1, result.2.2, result.1.action.pendingObj)

end Fetcher

/-- `Palettes` of `ppu/mod.rs`. -/
structure Palettes where
  bg : Palette
  obj0 : Palette
  obj1 : Palette
deriving Repr, DecidableEq

/-- The default palettes. -/
def Palettes.default : Palettes := ⟨Palette.new, Palette.new, Palette.new⟩

/-- `mix_pixels` of `pixel_transfer.rs`: sprite-over-background priority
and palette lookup. -/
def mixPixels (bgPixel : BgPixel) (objPixel : Option ObjPixel) (lcdc : LcdControl)
    (palettes : Palettes) : Color :=
  let objColor : Option Color :=
    match objPixel with
    | some op =>
      if lcdc.objEnable && op.index != 0
          && (decide (op.priority ≠ .BehindNonZeroBg) || bgPixel.index == 0) then
        some (match op.palette with
          | .ObjP0 => palettes.obj0.get op.index
          | .ObjP1 => palettes.obj1.get op.index)
      else none
    | none => none
  match objColor with
  | some c => c
  | none => if lcdc.bgWindowEnable then palettes.bg.get bgPixel.index else .White

/-! ## `gameboy/ppu/mod.rs` — the PPU -/

/-- The `DmaRequest` enum returned by `Ppu::tick`. -/
inductive DmaRequest where
  | NoRequest
  | Start (high : Nat)
deriving Repr, DecidableEq

/-- An RGBA framebuffer pixel (`ppu::Color`). -/
structure RgbaColor where
  r : Nat
  g : Nat
  b : Nat
  a : Nat
deriving Repr, DecidableEq

/-- The `From<palette::Color>` RGBA mapping of `ppu/mod.rs`. -/
def colorToRgba : Color → RgbaColor
  | .White => ⟨0xE0, 0xF8, 0xD0, 0xFF⟩
  | .LightGray => ⟨0x88, 0xC0, 0x70, 0xFF⟩
  | .DarkGray => ⟨0x34, 0x68, 0x56, 0xFF⟩
  | .Black => ⟨0x08, 0x18, 0x20, 0xFF⟩

/-- `Ppu` of `ppu/mod.rs`. -/
structure Ppu where
  screen : List RgbaColor
  vram : List Nat
  oam : List Nat
  bgFifo : PixelFifo BgPixel
  objFifo : PixelFifo ObjPixel
  fetcher : Fetcher
  visibleObjs : List Obj.Attributes
  dma : DmaRequest
  dmaAddress : Nat
  oamIndex : Nat
  lcdc : LcdControl
  stat : LcdStatus
  palettes : Palettes
  scrollY : Nat
  scrollX : Nat
  toDiscardX : Nat
  xPos : Nat
  lineY : Nat
  lineYCompare : Nat
  lineYWindow : Nat
  windowTriggered : Bool
  windowY : Nat
  windowX : Nat
  lineCyclesCount : Nat
deriving Repr, DecidableEq

namespace Ppu

/-- `Ppu::OAM_SIZE`. -/
def OAM_SIZE : Nat := 0xA0

/-- `Ppu::new`. -/
def new : Ppu :=
  { screen := List.replicate (160 * 144) (colorToRgba .Black)
    vram := List.replicate 0x2000 0
    oam := List.replicate OAM_SIZE 0
    bgFifo := PixelFifo.new ⟨0⟩
    objFifo := PixelFifo.new ObjPixel.transparent
    fetcher := Fetcher.new
    visibleObjs := []
    dma := .NoRequest
    dmaAddress := 0
    oamIndex := 0
    lcdc := LcdControl.new
    stat := LcdStatus.new
    palettes := Palettes.default
    scrollY := 0, scrollX := 0, toDiscardX := 0, xPos := 0
    lineY := 0, lineYCompare := 0, lineYWindow := 0
    windowTriggered := false, windowY := 0, windowX := 0, lineCyclesCount := 0 }

/-- `Ppu::new_post_bootrom`: LCD already enabled. -/
def newPostBootrom : Ppu :=
  { new with lcdc := { LcdControl.new with lcdEnable := true } }

/-- `Ppu::tick_oam_search`: examine one OAM entry, keeping the eligible
ones (nonzero X, Y intersecting the line for the current sprite height),
up to ten. The `u8` additions wrap. -/
def tickOamSearch (p : Ppu) : Ppu :=
  let obj := Obj.Attributes.parse (p.oam.getD p.oamIndex 0) (p.oam.getD (p.oamIndex + 1) 0)
    (p.oam.getD (p.oamIndex + 2) 0) (p.oam.getD (p.oamIndex + 3) 0)
  let p :=
    if decide (p.visibleObjs.length < 10)
        && obj.x != 0
        && decide (obj.y ≤ u8 (p.lineY + 16))
        && decide (u8 (p.lineY + 16) < u8 (obj.y + p.lcdc.objSize.height)) then
      { p with visibleObjs := p.visibleObjs ++ [obj] }
    else p
  { p with oamIndex := p.oamIndex + 4 }

/-- `Ppu::tick_pixel_transfer`: window activation, one fetcher step, and
(when the fetcher is not serving a sprite) one pixel popped towards the
LCD, honouring the `SCX % 8` discard counter and the 8-pixel warmup. -/
def tickPixelTransfer (p : Ppu) : Ppu :=
  let p :=
    if !p.windowTriggered && p.lcdc.windowEnable && p.xPos == u8 (p.windowX + 1)
        && decide (p.lineY ≥ p.windowY) then
      { p with windowTriggered := true, bgFifo := p.bgFifo.clear
               fetcher := p.fetcher.startWindow }
    else p
  let (fetcher, bgFifo, objFifo, pending) := p.fetcher.tick p.bgFifo p.objFifo p.visibleObjs
    p.lcdc p.xPos p.lineY p.scrollX p.scrollY p.vram p.windowTriggered p.lineYWindow
  let p := { p with fetcher, bgFifo, objFifo }
  if pending then p
  else
    match p.bgFifo.pop with
    | (bgFifo, some bgPixel) =>
      let p := { p with bgFifo }
      if p.toDiscardX > 0 then { p with toDiscardX := p.toDiscardX - 1 }
      else
        let (objFifo, objPixel) := p.objFifo.pop
        let p := { p with objFifo }
        let color := mixPixels bgPixel objPixel p.lcdc p.palettes
        let p :=
          if p.xPos ≥ 8 then
            { p with screen := p.screen.set (p.xPos - 8 + p.lineY * 160) (colorToRgba color) }
          else p
        { p with xPos := p.xPos + 1 }
    | (_, none) => p

/-- The pixel-transfer inner loop of `Ppu::tick` (up to four dots, with
the end-of-line break). Returns the PPU and the accumulated interrupt
bits. -/
def pixelTransferLoop : Nat → Ppu → Nat → Ppu × Nat
  | 0, p, interrupts => (p, interrupts)
  | fuel + 1, p, interrupts =>
    let p := p.tickPixelTransfer
    if p.xPos == 160 + 8 then
      let p := { p with bgFifo := p.bgFifo.clear, fetcher := p.fetcher.startLine
                        visibleObjs := [], xPos := 0 }
      let p :=
        if p.windowTriggered then { p with lineYWindow := p.lineYWindow + 1 } else p
      let p := { p with windowTriggered := false
                        stat := { p.stat with mode := .HBlank } }
      let interrupts :=
        if p.stat.hblankInterruptEnabled then interrupts ||| Interrupt.LcdStat.bits
        else interrupts
      (p, interrupts)
    else pixelTransferLoop fuel p interrupts

/-- `Ppu::tick`: one M-cycle of the PPU. With the LCD disabled it idles in
VBlank on line 0. Otherwise it advances the mode state machine (two OAM
entries per cycle in mode 2, four pixel-transfer dots in mode 3), then the
line dot counter, the LY/LYC coincidence and the line/frame wraps,
raising STAT/VBlank interrupt bits, and hands out a pending OAM-DMA
request. -/
def tick (p : Ppu) : Ppu × Nat × DmaRequest :=
  if !p.lcdc.lcdEnable then
    ({ p with lineY := 0, stat := { p.stat with mode := .VBlank } }, 0, .NoRequest)
  else
    let (p, interrupts) :=
      match p.stat.mode with
      | .OamSearch =>
        let p := p.tickOamSearch.tickOamSearch
        if p.oamIndex == OAM_SIZE then
          let p := { p with oamIndex := 0, toDiscardX := p.scrollX &&& 0b111
                            stat := { p.stat with mode := .PixelTransfer } }
          if p.stat.oamInterruptEnabled then (p, Interrupt.LcdStat.bits) else (p, 0)
        else (p, 0)
      | .PixelTransfer => pixelTransferLoop 4 p 0
      | _ => (p, 0)
    let p := { p with lineCyclesCount := (p.lineCyclesCount + 1) % 114 }
    let (p, interrupts) :=
      if p.lineCyclesCount == 0 then
        let p := { p with lineY := (p.lineY + 1) % 154 }
        let p := { p with stat := { p.stat with lycCoincidence := p.lineY == p.lineYCompare } }
        let interrupts :=
          if p.stat.lycCoincidence && p.stat.coincidenceInterruptEnabled then
            interrupts ||| Interrupt.LcdStat.bits
          else interrupts
        if p.lineY ≤ 143 then
          ({ p with stat := { p.stat with mode := .OamSearch } }, interrupts)
        else if p.lineY == 144 then
          let p := { p with lineYWindow := 0, stat := { p.stat with mode := .VBlank } }
          let interrupts := interrupts ||| Interrupt.VBlank.bits
          let interrupts :=
            if p.stat.vblankInterruptEnabled then interrupts ||| Interrupt.LcdStat.bits
            else interrupts
          (p, interrupts)
        else (p, interrupts)
      else (p, interrupts)
    ({ p with dma := .NoRequest }, interrupts, p.dma)

/-- `Ppu::read_vram`: locked (reads `0xFF`) during pixel transfer. -/
def readVram (p : Ppu) (address : Nat) : Nat :=
  match p.stat.mode with
  | .OamSearch | .HBlank | .VBlank => p.vram.getD address 0
  | .PixelTransfer => 0xFF

/-- `Ppu::write_vram`: dropped during pixel transfer. -/
def writeVram (p : Ppu) (address value : Nat) : Ppu :=
  match p.stat.mode with
  | .OamSearch | .HBlank | .VBlank => { p with vram := p.vram.set address value }
  | .PixelTransfer => p

/-- `Ppu::read_oam`: locked (reads `0xFF`) during OAM search and pixel
transfer. -/
def readOam (p : Ppu) (address : Nat) : Nat :=
  match p.stat.mode with
  | .HBlank | .VBlank => p.oam.getD address 0
  | .OamSearch | .PixelTransfer => 0xFF

/-- `Ppu::write_oam`: dropped during OAM search and pixel transfer. -/
def writeOam (p : Ppu) (address value : Nat) : Ppu :=
  match p.stat.mode with
  | .HBlank | .VBlank => { p with oam := p.oam.set address value }
  | .OamSearch | .PixelTransfer => p

/-- `Ppu::read_registers` (`FF40..FF4F`). -/
def readRegisters (p : Ppu) (address : Nat) : Nat :=
  if address == 0xFF40 then p.lcdc.value
  else if address == 0xFF41 then p.stat.value
  else if address == 0xFF42 then p.scrollY
  else if address == 0xFF43 then p.scrollX
  else if address == 0xFF44 then p.lineY
  else if address == 0xFF45 then p.lineYCompare
  else if address == 0xFF46 then p.dmaAddress
  else if address == 0xFF47 then p.palettes.bg.value
  else if address == 0xFF48 then p.palettes.obj0.value
  else if address == 0xFF49 then p.palettes.obj1.value
  else if address == 0xFF4A then p.windowY
  else if address == 0xFF4B then p.windowX
  else 0xFF

/-- `Ppu::write_registers` (`FF40..FF4F`): LCDC (restarting OAM search on
an LCD power-on), STAT enables, scroll, LYC, the OAM-DMA trigger,
palettes and window position. -/
def writeRegisters (p : Ppu) (address value : Nat) : Ppu :=
  if address == 0xFF40 then
    let enabled := p.lcdc.lcdEnable
    let p := { p with lcdc := p.lcdc.setValue value }
    if !enabled && p.lcdc.lcdEnable then
      { p with stat := { p.stat with mode := .OamSearch } }
    else p
  else if address == 0xFF41 then { p with stat := p.stat.setValue value }
  else if address == 0xFF42 then { p with scrollY := value }
  else if address == 0xFF43 then { p with scrollX := value }
  else if address == 0xFF44 then p
  else if address == 0xFF45 then { p with lineYCompare := value }
  else if address == 0xFF46 then { p with dma := .Start value, dmaAddress := value }
  else if address == 0xFF47 then { p with palettes := { p.palettes with bg := p.palettes.bg.setValue value } }
  else if address == 0xFF48 then { p with palettes := { p.palettes with obj0 := p.palettes.obj0.setValue value } }
  else if address == 0xFF49 then { p with palettes := { p.palettes with obj1 := p.palettes.obj1.setValue value } }
  else if address == 0xFF4A then { p with windowY := value }
  else if address == 0xFF4B then { p with windowX := value }
  else p

end Ppu

/-! ## `gameboy/mmu.rs` — the memory management unit -/

/-- The `Dma` enum of `mmu.rs` (the OAM-DMA copier state). -/
inductive Dma where
  | NoDma
  | InProgress (storedValue offset baseAddress : Nat)
deriving Repr, DecidableEq

/-- `Mmu` of `mmu.rs`. -/
structure Mmu where
  wram : List Nat
  hram : List Nat
  apu : Apu
  ppu : Ppu
  io : Io
  cartridge : Cartridge
  dma : Dma
  interruptFlags : Nat
  interruptEnable : Nat
  ieValue : Nat
deriving Repr, DecidableEq

namespace Mmu

/-- `Mmu::new`. -/
def new (rom : List Nat) (bootrom : Option (List Nat)) (save : Option (List Nat))
    (timestampNow : Nat) : Except Error Mmu :=
  let ppu := if bootrom.isSome then Ppu.new else Ppu.newPostBootrom
  match Cartridge.new rom bootrom save timestampNow with
  | .error e => .error e
  | .ok cartridge =>
    .ok { wram := List.replicate 8192 0, hram := List.replicate 127 0
          apu := Apu.new, ppu, io := Io.new, cartridge, dma := .NoDma
          interruptFlags := 0, interruptEnable := 0, ieValue := 0 }

/-- `Mmu::interrupts`: enabled and requested. -/
def interrupts (m : Mmu) : Nat := m.interruptFlags &&& m.interruptEnable

/-- `Mmu::next_interrupt`: the first pending interrupt in the fixed
priority order VBlank, LCD-Stat, Timer, Serial, Joypad. -/
def nextInterrupt (m : Mmu) : Option Interrupt :=
  let ints := m.interrupts
  if ints &&& Interrupt.VBlank.bits != 0 then some .VBlank
  else if ints &&& Interrupt.LcdStat.bits != 0 then some .LcdStat
  else if ints &&& Interrupt.Timer.bits != 0 then some .Timer
  else if ints &&& Interrupt.Serial.bits != 0 then some .Serial
  else if ints &&& Interrupt.Joypad.bits != 0 then some .Joypad
  else none

/-- `Mmu::reset_interrupt`: clear one bit of IF (`FlagSet` complement,
within the five defined bits). -/
def resetInterrupt (m : Mmu) (interrupt : Interrupt) : Mmu :=
  { m with interruptFlags := m.interruptFlags &&& (0b11111 ^^^ interrupt.bits) }

/-- `Mmu::read_byte_no_conflict`: the full address decode. The cartridge
reads surface their `Option` (a Rust indexing panic) as the open-bus
value, unreachable for in-range ROM/RAM layouts. -/
def readByteNoConflict (m : Mmu) (address : Nat) : Nat :=
  if address ≤ 0x7FFF then (m.cartridge.readRom address).getD 0xFF
  else if address ≤ 0x9FFF then m.ppu.readVram (address - 0x8000)
  else if address ≤ 0xBFFF then (m.cartridge.readRam (address - 0xA000)).getD 0xFF
  else if address ≤ 0xDFFF then m.wram.getD (address - 0xC000) 0
  else if address ≤ 0xFDFF then m.wram.getD (address - 0xE000) 0
  else if address ≤ 0xFE9F then m.ppu.readOam (address - 0xFE00)
  else if address ≤ 0xFEFF then 0xFF
  else if address ≤ 0xFF07 then m.io.read address
  else if address ≤ 0xFF0E then 0xFF
  else if address = 0xFF0F then m.interruptFlags ||| 0b11100000
  else if address ≤ 0xFF3F then m.apu.read address
  else if address ≤ 0xFF4F then m.ppu.readRegisters address
  else if address = 0xFF50 then 0xFF
  else if address ≤ 0xFF7F then 0xFF
  else if address ≤ 0xFFFE then m.hram.getD (address - 0xFF80) 0
  else m.interruptEnable ||| (m.ieValue &&& 0b11100000)

/-- `Mmu::write_byte_no_conflict`: the full address decode for writes. -/
def writeByteNoConflict (m : Mmu) (address value : Nat) : Mmu :=
  if address ≤ 0x7FFF then { m with cartridge := m.cartridge.writeRom address value }
  else if address ≤ 0x9FFF then { m with ppu := m.ppu.writeVram (address - 0x8000) value }
  else if address ≤ 0xBFFF then
    { m with cartridge := m.cartridge.writeRam (address - 0xA000) value }
  else if address ≤ 0xDFFF then { m with wram := m.wram.set (address - 0xC000) value }
  else if address ≤ 0xFDFF then { m with wram := m.wram.set (address - 0xE000) value }
  else if address ≤ 0xFE9F then { m with ppu := m.ppu.writeOam (address - 0xFE00) value }
  else if address ≤ 0xFEFF then m
  else if address ≤ 0xFF07 then { m with io := m.io.write address value }
  else if address ≤ 0xFF0E then m
  else if address = 0xFF0F then { m with interruptFlags := interruptTruncate value }
  else if address ≤ 0xFF3F then { m with apu := m.apu.write address value }
  else if address ≤ 0xFF4F then { m with ppu := m.ppu.writeRegisters address value }
  else if address = 0xFF50 then
    if value != 0 then { m with cartridge := m.cartridge.disableBootrom } else m
  else if address ≤ 0xFF7F then m
  else if address ≤ 0xFFFE then { m with hram := m.hram.set (address - 0xFF80) value }
  else { m with interruptEnable := interruptTruncate value, ieValue := value }

/-- `Mmu::tick`: one M-cycle of the whole bus — cartridge (RTC), timer
and joypad, PPU, the frame-sequencer strobe into the APU, the APU sample
step, and one step of the OAM-DMA copier. -/
def tick (m : Mmu) : Mmu :=
  let m := { m with cartridge := m.cartridge.tick }
  let (io, ioTick) := m.io.tick
  let m := { m with io }
  let (ppu, ppuInterrupts, dmaRequest) := m.ppu.tick
  let m := { m with ppu }
  let m :=
    { m with interruptFlags := m.interruptFlags ||| ioTick.interrupts ||| ppuInterrupts }
  let m := if ioTick.apuIncDiv then { m with apu := m.apu.incDiv } else m
  let m := { m with apu := m.apu.tick }
  match dmaRequest with
  | .Start highByte =>
    let baseAddress := highByte <<< 8
    let storedValue := m.readByteNoConflict baseAddress
    { m with dma := .InProgress storedValue 0 baseAddress }
  | .NoRequest =>
    match m.dma with
    | .InProgress storedValue offset baseAddress =>
      let m := m.writeByteNoConflict (0xFE00 + offset) storedValue
      let offset := offset + 1
      let storedValue := m.readByteNoConflict (baseAddress + offset)
      { m with dma :=
          if offset < Ppu.OAM_SIZE then .InProgress storedValue offset baseAddress
          else .NoDma }
    | .NoDma => m

/-- `Mmu::tick_stopped`: only the joypad can raise an interrupt. -/
def tickStopped (m : Mmu) : Mmu :=
  { m with interruptFlags := m.interruptFlags ||| m.io.tickStopped }

/-- `MemoryOps::read_byte` for `Mmu` (the OAM-DMA bus conflict is
disabled in the source). -/
def readByte (m : Mmu) (address : Nat) : Nat := m.readByteNoConflict address

/-- `MemoryOps::write_byte` for `Mmu`. -/
def writeByte (m : Mmu) (address value : Nat) : Mmu := m.writeByteNoConflict address value

end Mmu

/-! ## `gameboy/cpu/mod.rs` — the CPU step -/

/-- The `ExecutionState` enum of `cpu/mod.rs`. -/
inductive ExecutionState where
  | Continue
  | Stop
  | IllegalInstruction
  | Halt
deriving Repr, DecidableEq

/-- `Cpu` of `cpu/mod.rs`. -/
structure Cpu where
  registers : Registers
  enableIme : Bool
  mmu : Mmu
  cycles : Nat
  executionState : ExecutionState
deriving Repr, DecidableEq

namespace Cpu

/-- `Cpu::MAX_TICKS_PER_INSTR`. -/
def MAX_TICKS_PER_INSTR : Nat := 6 * 4

/-- `Cpu::new`. -/
def new (rom : List Nat) (bootrom : Option (List Nat)) (save : Option (List Nat))
    (timestampNow : Nat) : Except Error Cpu :=
  let registers := if bootrom.isSome then Registers.new else Registers.newPostBootrom
  match Mmu.new rom bootrom save timestampNow with
  | .error e => .error e
  | .ok mmu =>
    .ok { registers, enableIme := false, mmu, cycles := 0, executionState := .Continue }

/-- `Cpu::tick`: one bus tick charges 4 master cycles and advances the
whole bus. -/
def tick (c : Cpu) : Cpu := { c with cycles := c.cycles + 4, mmu := c.mmu.tick }

/-- `Cpu::tick_stopped`. -/
def tickStopped (c : Cpu) : Cpu :=
  { c with cycles := c.cycles + 4, mmu := c.mmu.tickStopped }

/-- `MemoryOps::read_byte` for `Cpu`: tick, then read. -/
def readByte (c : Cpu) (address : Nat) : Cpu × Nat :=
  let c := c.tick
  (c, c.mmu.readByte address)

/-- `MemoryOps::write_byte` for `Cpu`: tick, then write. -/
def writeByte (c : Cpu) (address value : Nat) : Cpu :=
  let c := c.tick
  { c with mmu := c.mmu.writeByte address value }

/-- The `MemoryOps::read_dbyte` default method: low then high byte. -/
def readDbyte (c : Cpu) (address : Nat) : Cpu × Nat :=
  let (c, low) := c.readByte address
  let (c, high) := c.readByte (u16 (address + 1))
  (c, high * 256 + low)

/-- The `MemoryOps::write_dbyte` default method: high then low byte. -/
def writeDbyte (c : Cpu) (address value : Nat) : Cpu :=
  let c := c.writeByte (u16 (address + 1)) ((value >>> 8) &&& 0xFF)
  c.writeByte address (value &&& 0xFF)

/-- `Cpu::push_stack`: pre-decrement SP by two (wrapping), then the
high-then-low double write. -/
def pushStack (c : Cpu) (value : Nat) : Cpu :=
  let c := { c with registers :=
    { c.registers with sp := (c.registers.sp + 0x10000 - 2) % 0x10000 } }
  c.writeDbyte c.registers.sp value

/-- `Cpu::ei` (`instructions.rs`, the handler of opcode `0xFB`): the
source sets `registers.ime` directly (the `enable_ime` deferral field is
never written by any instruction). -/
def ei (c : Cpu) (_opcode : Nat) : Cpu :=
  { c with registers := { c.registers with ime := true } }

/-- `Cpu::di` (`instructions.rs`, the handler of opcode `0xF3`). -/
def di (c : Cpu) (_opcode : Nat) : Cpu :=
  { c with registers := { c.registers with ime := false } }

/-- The interrupt-service block of `Cpu::next_instruction` (lines 91-94 of
`cpu/mod.rs`): push PC, jump to the vector, clear the serviced IF bit and
IME. -/
def serviceInterrupt (c : Cpu) (interrupt : Interrupt) : Cpu :=
  let c := c.pushStack c.registers.pc
  let c := { c with registers := { c.registers with pc := interrupt.address } }
  let c := { c with mmu := c.mmu.resetInterrupt interrupt }
  { c with registers := { c.registers with ime := false } }

/-- The possible outcomes of the prelude of `Cpu::next_instruction`:
an early `return self.cycles`, or falling through to the opcode fetch
and table dispatch. -/
inductive PreludeOutcome where
  | ret (c : Cpu)
  | fetch (c : Cpu)
deriving Repr, DecidableEq

/-- The deferred-IME transfer of `Cpu::next_instruction` (lines 100-103):
move `enable_ime` into `ime`. -/
def imeEnablePhase (c : Cpu) : Cpu :=
  if c.enableIme then
    { c with enableIme := false, registers := { c.registers with ime := true } }
  else c

/-- Lines 89-103 of `Cpu::next_instruction`: when IME is set and an
enabled interrupt is pending, service it and return; otherwise run the
deferred-IME transfer and fall through to the fetch. -/
def interruptCheckPhase (c : Cpu) : PreludeOutcome :=
  if c.registers.ime then
    match c.mmu.nextInterrupt with
    | some interrupt => .ret (c.serviceInterrupt interrupt)
    | none => .fetch c.imeEnablePhase
  else .fetch c.imeEnablePhase

/-- The prelude of `Cpu::next_instruction` (lines 63-103 of
`cpu/mod.rs`): the execution-state handling (HALT/STOP wake-up, the
illegal-instruction latch) followed by the interrupt check and the
deferred-IME transfer. The fetch-and-dispatch of the 256-entry opcode
table that follows a `fetch` outcome is outside this embedding, apart
from the `ei`/`di` handlers above (table entries `0xFB` and `0xF3`). -/
def nextInstructionPrelude (c : Cpu) : PreludeOutcome :=
  match c.executionState with
  | .Continue => c.interruptCheckPhase
  | .Halt =>
    if c.mmu.interrupts == 0 then .ret c.tick
    else ({ c with executionState := .Continue }).interruptCheckPhase
  | .Stop =>
    if c.mmu.interrupts == 0 then .ret c.tickStopped
    else ({ c with executionState := .Continue }).interruptCheckPhase
  | .IllegalInstruction => .ret c.tick

end Cpu

/-! ## Concrete machine states used by the closed checks -/

/-- A minimal concrete cartridge (no mapper state, empty ROM) for closed
machine-level checks. -/
def testCartridge : Cartridge :=
  { header := { title := [], romSize := 0x8000, romBankCount := 2, ramSize := 0
                ramBankCount := 0, destination := .Japanese }
    mapper := .RomOnly .mk, bootrom := none, bootromEnabled := false
    rom := [], ram := [] }

/-- A minimal concrete MMU (LCD and APU off, empty memories) with the
VBlank interrupt requested and enabled. -/
def testMmu : Mmu :=
  { wram := [], hram := [], apu := Apu.new, ppu := Ppu.new, io := Io.new
    cartridge := testCartridge, dma := .NoDma
    interruptFlags := 1, interruptEnable := 1, ieValue := 1 }

/-- A concrete CPU about to start an instruction in the `Continue` state,
IME clear, with a pending enabled VBlank interrupt. -/
def testCpu : Cpu :=
  { registers := { Registers.new with sp := 0xD002, pc := 0x1234 }
    enableIme := false, mmu := testMmu, cycles := 0, executionState := .Continue }

/-- A `0x14F`-byte ROM image whose header declares mapper `0x13`
(MBC3+RAM+BATTERY, without RTC) and 8 KiB of RAM. -/
def mbc3Rom : List Nat :=
  List.replicate 0x147 0 ++ [0x13, 0x00, 0x02, 0x00] ++ List.replicate 4 0

/-- An 8 KiB save blob — exactly the declared RAM size, no RTC tail. -/
def mbc3Save : List Nat := List.replicate 0x2000 0

/-- A timer one tick before a falling edge of bit 4 of the visible DIV
register (internal divider `8188`, DIV = `0x1F`). -/
def divEdgeTimer : Timer :=
  { divider := 8188, counter := 0, modulo := 0, enabled := false
    apuIncDiv := false, inputClock := .CpuDiv1024, state := .Normal }

/-- A powered APU at frame-sequencer phase 1 with a running decreasing
envelope on channel 1. -/
def phase1Apu : Apu :=
  { Apu.new with
    soundEnable := { channels := ChannelToggles.default, enableApu := true },
    div := 1,
    ch1 := { Channel1.default with volume := 5, volEnv := ⟨5, .Decrease, 1⟩ } }

/-- The same APU at frame-sequencer phase 0. -/
def phase0Apu : Apu := { phase1Apu with div := 0 }

/-- `testCpu` with IME already set (about to service the pending VBlank). -/
def testCpuIme : Cpu :=
  { testCpu with registers := { testCpu.registers with ime := true } }

/-- A dispatch-ready CPU with a full-size WRAM and SP inside WRAM. -/
def testCpuDispatch : Cpu :=
  { testCpuIme with mmu := { testMmu with wram := List.replicate 8192 0 } }

/-! ## Theorems -/

/-- Distribution of the low-nibble mask over a bitwise or. -/
theorem and15_lor (a b : Nat) : (a ||| b) &&& 15 = (a &&& 15) ||| (b &&& 15) := by
  apply Nat.eq_of_testBit_eq
  intro i
  simp only [Nat.testBit_land, Nat.testBit_lor]
  by_cases h : i < 4
  · interval_cases i <;> simp [Bool.and_or_distrib_right]
  · have h15 : Nat.testBit 15 i = false := by
      have : 15 < 2 ^ i := by
        calc 15 < 2 ^ 4 := by norm_num
        _ ≤ 2 ^ i := Nat.pow_le_pow_right (by norm_num) (by omega)
      exact Nat.testBit_lt_two_pow this
    simp [h15]

/-- A conjunct with a clear low nibble keeps the low nibble clear. -/
theorem and15_land_left {a : Nat} (x : Nat) (h : a &&& 15 = 0) : (a &&& x) &&& 15 = 0 := by
  rw [Nat.and_assoc, Nat.and_comm x 15, ← Nat.and_assoc, h, Nat.zero_and]

/-- The flag values the embedded code can ever produce: the two initial
register files and closure under every `Flags` mutation the source has
(`set_value`, `set` of one of the four defined flags — through which all
the `update_*` helpers go — and `clear`). -/
inductive ReachableFlags : Flags → Prop where
  | new : ReachableFlags ⟨0⟩
  | postBootrom : ReachableFlags ⟨flagC ||| flagH ||| flagZ⟩
  | setValue (f : Flags) (v : Nat) : ReachableFlags f → ReachableFlags (f.setValue v)
  | set (f : Flags) (flag : Nat) (b : Bool) : flag ∈ [flagZ, flagN, flagH, flagC] →
      ReachableFlags f → ReachableFlags (f.set flag b)
  | clear (f : Flags) : ReachableFlags f → ReachableFlags f.clear

/-- C8: the flag register F's low nibble is always zero after any
instruction. Every F value the code can produce — the initial register
files and anything reached through the source's flag mutations, including
the `POP AF` path (`Registers::set_af`, which goes through
`Flags::set_value`) — has bits 3..0 clear, and consequently so does the
low byte of any `AF` read. -/
theorem C8_flags_low_nibble_zero (f : Flags) (h : ReachableFlags f) :
    f.value &&& 0x0F = 0 ∧
      ∀ r : Registers, r.flags = f → r.af % 16 = 0 := by
  have hbits : f.bits &&& 0x0F = 0 := by
    induction h with
    | new => decide
    | postBootrom => decide
    | setValue f v _ ih =>
      show (v &&& 0xF0) &&& 0x0F = 0
      rw [Nat.and_assoc, show (0xF0 &&& 0x0F : Nat) = 0 by decide, Nat.and_zero]
    | set f flag b hmem _ ih =>
      cases b with
      | true =>
        show (f.bits ||| flag) &&& 15 = 0
        rw [and15_lor, ih]
        simp only [List.mem_cons, List.not_mem_nil, or_false] at hmem
        rcases hmem with h | h | h | h <;> subst h <;> decide
      | false =>
        exact and15_land_left _ ih
    | clear f _ ih => simp [Flags.clear]
  refine ⟨hbits, fun r hr => ?_⟩
  have : r.af % 16 = r.flags.bits % 16 := by
    unfold Registers.af
    omega
  rw [this, hr]
  have := Nat.and_pow_two_sub_one_eq_mod f.bits 4
  simp only [show (2 : Nat) ^ 4 - 1 = 15 from rfl] at this
  rw [← this]
  exact hbits

/-- Witness for C8 at a concrete reachable flag value (the post-boot
flags with Z cleared and C set through the source's own mutators). -/
theorem C8_flags_low_nibble_zero_witness :
    ((⟨flagC ||| flagH ||| flagZ⟩ : Flags).set flagZ false).value &&& 0x0F = 0 :=
  (C8_flags_low_nibble_zero _
    (ReachableFlags.set _ flagZ false (by simp) ReachableFlags.postBootrom)).1

/-- C2: a TIMA overflow is resolved one tick late. Any timer tick that
wraps the counter from `0xFF` (timer enabled, normal state, the selected
divider bit toggling) reports no timer interrupt itself; the immediately
following tick reloads TIMA from TMA and reports the Timer interrupt. -/
theorem C2_tima_overflow_delayed (t : Timer) (hen : t.enabled = true)
    (hst : t.state = .Normal) (hc : t.counter = 255)
    (hedge : ((t.divider ^^^ (t.divider + 4) % 65536) &&& t.inputClock.bit != 0) = true) :
    t.tick.2.timerOverflow = false ∧
      t.tick.1.counter = 0 ∧
      t.tick.1.state = .Overflowed ∧
      t.tick.1.tick.2.timerOverflow = true ∧
      t.tick.1.tick.1.counter = t.modulo ∧
      t.tick.1.tick.1.state = .Normal := by
  simp only [Timer.tick, Timer.increaseCounter, hen, hst, hc, hedge]
  simp

/-- Witness for C2: a concrete enabled timer at TIMA = `0xFF` with the
16-cycle clock, one divider step before the selected bit toggles. -/
theorem C2_tima_overflow_delayed_witness :
    ∃ t : Timer, t.enabled = true ∧ t.state = .Normal ∧ t.counter = 255 ∧
      ((t.divider ^^^ (t.divider + 4) % 65536) &&& t.inputClock.bit != 0) = true ∧
      t.tick.2.timerOverflow = false ∧ t.tick.1.tick.2.timerOverflow = true ∧
      t.tick.1.tick.1.counter = t.modulo := by
  refine ⟨{ divider := 28, counter := 255, modulo := 0x42, enabled := true
            apuIncDiv := false, inputClock := .CpuDiv16, state := .Normal }, ?_⟩
  have h := C2_tima_overflow_delayed
    { divider := 28, counter := 255, modulo := 0x42, enabled := true
      apuIncDiv := false, inputClock := .CpuDiv16, state := .Normal }
    rfl rfl rfl (by decide)
  exact ⟨rfl, rfl, rfl, by decide, h.1, h.2.2.2.1, h.2.2.2.2.1⟩

/-- Reading a list slot just written (in bounds). -/
theorem getD_set_self (l : List Nat) (n v d : Nat) (h : n < l.length) :
    (l.set n v).getD n d = v := by
  simp [List.getD, List.getElem?_set_self', List.getElem?_eq_getElem, h]

/-- Reading a different list slot than the one written. -/
theorem getD_set_ne (l : List Nat) (n m v d : Nat) (h : n ≠ m) :
    (l.set n v).getD m d = l.getD m d := by
  simp [List.getD, List.getElem?_set_ne h]

/-- C6 (the code side): the STAT register read never exposes the live
LY=LYC coincidence flag — bit 2 of `LcdStatus::value` is zero for every
status, including one whose `lyc_coincidence` field is set — while bits
1..0 do report the mode and bit 6 the coincidence interrupt enable. -/
theorem C6_stat_bit2_always_clear (s : LcdStatus) :
    s.value &&& 0b100 = 0 ∧
      s.value % 4 = s.mode.value ∧
      (s.value >>> 6) &&& 1 = b2n s.coincidenceInterruptEnabled := by
  rcases s with ⟨ci, oi, vi, hi, lyc, mode⟩
  cases ci <;> cases oi <;> cases vi <;> cases hi <;> cases lyc <;> cases mode <;> decide

/-- C5: VRAM is locked against the CPU during pixel transfer (mode 3) and
OAM during OAM search and pixel transfer (modes 2 and 3): locked reads
return `0xFF` and locked writes leave the contents unchanged; in every
other mode reads return the stored byte and a write followed by a read at
the same in-bounds address returns the written byte. -/
theorem C5_vram_oam_locking (p : Ppu) (av ao value : Nat)
    (hav : av < p.vram.length) (hao : ao < p.oam.length) :
    (p.stat.mode = .PixelTransfer →
      p.readVram av = 0xFF ∧ (p.writeVram av value).vram = p.vram) ∧
    (p.stat.mode = .OamSearch ∨ p.stat.mode = .PixelTransfer →
      p.readOam ao = 0xFF ∧ (p.writeOam ao value).oam = p.oam) ∧
    (p.stat.mode ≠ .PixelTransfer →
      p.readVram av = p.vram.getD av 0 ∧ (p.writeVram av value).readVram av = value) ∧
    (p.stat.mode ≠ .OamSearch ∧ p.stat.mode ≠ .PixelTransfer →
      p.readOam ao = p.oam.getD ao 0 ∧ (p.writeOam ao value).readOam ao = value) := by
  refine ⟨fun hm => ?_, fun hm => ?_, fun hm => ?_, fun hm => ?_⟩
  · simp [Ppu.readVram, Ppu.writeVram, hm]
  · rcases hm with hm | hm <;> simp [Ppu.readOam, Ppu.writeOam, hm]
  · cases hmode : p.stat.mode <;> simp_all [Ppu.readVram, Ppu.writeVram]
  · rcases hm with ⟨h2, h3⟩
    cases hmode : p.stat.mode <;> simp_all [Ppu.readOam, Ppu.writeOam]

/-- Witness for C5 at the freshly constructed PPU (mode 2, OAM search):
OAM reads are locked to `0xFF` while VRAM reads round-trip a write. -/
theorem C5_vram_oam_locking_witness :
    Ppu.new.readOam 0 = 0xFF ∧ (Ppu.new.writeVram 0 0x55).readVram 0 = 0x55 := by
  have hv : (0 : Nat) < Ppu.new.vram.length := by
    show (0 : Nat) < (List.replicate 0x2000 0).length
    rw [List.length_replicate]
    omega
  have ho : (0 : Nat) < Ppu.new.oam.length := by
    show (0 : Nat) < (List.replicate Ppu.OAM_SIZE 0).length
    rw [List.length_replicate]
    decide
  have h := C5_vram_oam_locking Ppu.new 0 0 0x55 hv ho
  have hmode : Ppu.new.stat.mode = .OamSearch := rfl
  refine ⟨(h.2.1 (Or.inl hmode)).1, (h.2.2.1 ?_).2⟩
  rw [hmode]
  decide

/-- C3 (the code side): for the MBC5 mapper the external-RAM round trip
fails. With RAM present, after the RAM-enable write of `0x0A` to `0x0000`
(which does set the enable flag) and a write of `0x42` to RAM offset 0,
reading back yields the prior RAM content `0x00`, not the written value:
`Mbc5::write_ram` drops every write. -/
theorem C3_mbc5_ram_write_dropped :
    (((Mbc5.new false true false).writeRom 0x0000 0x0A).ramEnabled = true) ∧
    (let m := (Mbc5.new false true false).writeRom 0x0000 0x0A
     let ram := List.replicate 0x2000 0
     let mr := m.writeRam ram 0x0000 0x42
     mr.2 = ram ∧ mr.1.readRam mr.2 0x0000 = some 0x00 ∧ (0x00 : Nat) ≠ 0x42) := by
  refine ⟨rfl, rfl, ?_, by decide⟩
  rfl

/-- C10: writing `0x00` to the MBC5 low bank-select window leaves ROM
bank 0 selected (no zero-to-one adjustment), and every subsequent read of
the switchable window `0x4000..0x7FFF` computes `rom_bank - 1` on the
unsigned bank number, wraps to `0xFFFF`, and indexes out of the ROM
bounds (a panic) for every ROM of any realisable size, instead of
returning bank-0 data. -/
theorem C10_mbc5_bank0_read_out_of_bounds (m : Mbc5) (rom : List Nat) (address : Nat)
    (hbank : m.romBank &&& 0xFF00 = 0)
    (hrom : rom.length ≤ 0x800000) (h1 : 0x4000 ≤ address) (h2 : address ≤ 0x7FFF) :
    (m.writeRom 0x2000 0x00).romBank = 0 ∧
      (m.writeRom 0x2000 0x00).readRom rom address = none := by
  have hwb : (m.writeRom 0x2000 0x00).romBank = 0 := by
    simp [Mbc5.writeRom, hbank, u8]
  refine ⟨hwb, ?_⟩
  simp only [Mbc5.readRom, hwb]
  rw [if_neg (by omega), if_pos (by omega)]
  apply List.get?_eq_none.2
  omega

/-- Witness for C10: the fresh MBC5 mapper, a one-byte ROM, the first
address of the switchable window. -/
theorem C10_mbc5_bank0_read_out_of_bounds_witness :
    ((Mbc5.new false true false).writeRom 0x2000 0x00).romBank = 0 ∧
      ((Mbc5.new false true false).writeRom 0x2000 0x00).readRom [0x12] 0x4000 = none :=
  C10_mbc5_bank0_read_out_of_bounds (Mbc5.new false true false) [0x12] 0x4000
    (by decide) (by decide) (by decide) (by decide)

set_option maxRecDepth 2048 in
/-- C9 (the code side): the header of `mbc3Rom` parses to a battery-backed
MBC3 mapper without RTC and a declared RAM size of 8 KiB, yet
`Cartridge::new` rejects the save blob of exactly that size with
`InvalidRtcData`: the MBC3 branch errors whenever the save is not exactly
`ram_size + 48` bytes with an RTC, so no MBC3 save without an RTC tail is
ever accepted. -/
theorem C9_mbc3_save_rejected :
    Header.parse mbc3Rom =
      .ok ({ title := [], romSize := 0x8000, romBankCount := 2, ramSize := 0x2000
             ramBankCount := 1, destination := .Japanese }, .Mbc3 (Mbc3.new false true true)) ∧
    mbc3Save.length = 0x2000 ∧
    (Mbc3.new false true true).hasBattery = true ∧
    (Mbc3.new false true true).hasRtc = false ∧
    Cartridge.new mbc3Rom none (some mbc3Save) 0 = .error .InvalidRtcData := by
  have hparse : Header.parse mbc3Rom =
      .ok ({ title := [], romSize := 0x8000, romBankCount := 2, ramSize := 0x2000
             ramBankCount := 1, destination := .Japanese }, .Mbc3 (Mbc3.new false true true)) := by
    rfl
  have hlen : mbc3Save.length = 0x2000 := by
    show (List.replicate 0x2000 0).length = 0x2000
    rw [List.length_replicate]
  refine ⟨hparse, hlen, rfl, rfl, ?_⟩
  suffices hgen : ∀ s : List Nat, s.length = 0x2000 →
      Cartridge.new mbc3Rom none (some s) 0 = .error .InvalidRtcData from
    hgen mbc3Save hlen
  intro s hs
  unfold Cartridge.new
  rw [hparse]
  simp only [Mapper.hasBattery, Mbc3.hasRtcFn, Mbc3.new]
  rw [hs]
  simp

/-- C7 (counterexample): the tick that takes the internal divider from
`8188` to `8192` is a falling edge of bit 4 of the visible DIV register
(`0x1F` to `0x20`), yet it does not report a frame-sequencer step —
`Timer::tick` only reports one when the divider lands exactly on `0x20`. -/
theorem C7_div_edge_counterexample :
    (divEdgeTimer.divider >>> 8).testBit 4 = true ∧
    (divEdgeTimer.tick.1.divider >>> 8).testBit 4 = false ∧
    divEdgeTimer.tick.2.apuIncDiv = false := by
  decide

set_option maxHeartbeats 1000000 in
/-- C7 (amended): the frame sequencer strobe of `Timer::tick` is exactly
"the divider landed on `0x20`" (or a pending DIV-write strobe), once per
65536-cycle divider period — not every falling edge of DIV bit 4; and on a
strobe, `Apu::inc_div` advances the length counters only on even phases,
the channel-1 sweep only on phases divisible by 4 (not 2 and 6), and the
envelopes of channels 1, 2 and 4 only on phases divisible by 8 (not 7),
the phase counter incrementing afterwards. -/
theorem C7_frame_sequencer (t : Timer) (a : Apu)
    (hapu : a.soundEnable.enableApu = true) :
    t.tick.2.apuIncDiv = (((t.divider + 4) % 65536 == 32) || t.apuIncDiv) ∧
    (a.div % 2 = 1 →
      (a.incDiv.ch1.waveDutyLenTimer.lenTimer = a.ch1.waveDutyLenTimer.lenTimer ∧
       a.incDiv.ch2.waveDutyLenTimer.lenTimer = a.ch2.waveDutyLenTimer.lenTimer ∧
       a.incDiv.ch3.lenTimer = a.ch3.lenTimer ∧
       a.incDiv.ch4.lenTimer = a.ch4.lenTimer)) ∧
    (a.div % 4 ≠ 0 → a.incDiv.ch1.wavelenCtrl.wavelen = a.ch1.wavelenCtrl.wavelen) ∧
    (a.div % 8 ≠ 0 →
      (a.incDiv.ch1.volume = a.ch1.volume ∧
       a.incDiv.ch2.volume = a.ch2.volume ∧
       a.incDiv.ch4.volume = a.ch4.volume)) ∧
    (a.div % 8 = 0 → a.ch1.volEnv.pace = 1 → a.ch1.volEnv.direction = .Decrease →
      a.ch1.volume ≠ 0 → a.incDiv.ch1.volume = a.ch1.volume - 1) ∧
    a.incDiv.div = (a.div + 1) % 256 := by
  have hand3 : a.div &&& 3 = a.div % 4 := by
    have := Nat.and_pow_two_sub_one_eq_mod a.div 2
    norm_num at this
    exact this
  have hand7 : a.div &&& 7 = a.div % 8 := by
    have := Nat.and_pow_two_sub_one_eq_mod a.div 3
    norm_num at this
    exact this
  have hmod2 : a.div % 8 % 2 = a.div % 2 := Nat.mod_mod_of_dvd a.div (by norm_num)
  have hmod4 : a.div % 8 % 4 = a.div % 4 := Nat.mod_mod_of_dvd a.div (by norm_num)
  have hmod24 : a.div % 4 % 2 = a.div % 2 := Nat.mod_mod_of_dvd a.div (by norm_num)
  refine ⟨?_, ?_, ?_, ?_, ?_, ?_⟩
  · simp only [Timer.tick]
    rcases t.enabled with _ | _
    · simp
    · rcases hs : t.state with _ | _ <;> simp
  · intro hodd
    have hp2 : ¬a.div % 2 = 0 := by omega
    have hp4 : ¬a.div % 4 = 0 := by omega
    have hp8 : ¬a.div % 8 = 0 := by omega
    simp [Apu.incDiv, hapu, hand3, hand7, hp2, hp4, hp8]
  · intro h4
    have hp8 : ¬a.div % 8 = 0 := by omega
    by_cases hp2 : a.div % 2 = 0 <;>
      simp [Apu.incDiv, hapu, hand3, hand7, hp2, h4, hp8]
  · intro h8
    by_cases hp2 : a.div % 2 = 0 <;> by_cases hp4 : a.div % 4 = 0 <;>
      rcases hop : a.ch1.sweep.op with _ | _ <;>
      simp [Apu.incDiv, hapu, hand3, hand7, hp2, hp4, h8, hop,
        apply_ite (fun x : Apu => x.div), apply_ite (fun x : Apu => x.ch1),
        apply_ite (fun x : Apu => x.ch2), apply_ite (fun x : Apu => x.ch4),
        apply_ite (fun c : Channel1 => c.volume), apply_ite (fun c : Channel2 => c.volume),
        apply_ite (fun c : Channel4 => c.volume)]
  · intro h8 hpace hdir hvol
    have hp2 : a.div % 2 = 0 := by omega
    have hp4 : a.div % 4 = 0 := by omega
    have hvolpos : 0 < a.ch1.volume := Nat.pos_of_ne_zero hvol
    rcases hop : a.ch1.sweep.op with _ | _ <;>
      simp [Apu.incDiv, hapu, hand3, hand7, hp2, hp4, h8, hpace, hdir, hvolpos, hop,
        Nat.mod_one,
        apply_ite (fun x : Apu => x.div), apply_ite (fun x : Apu => x.ch1),
        apply_ite (fun x : Apu => x.ch1.volEnv), apply_ite (fun c : Channel1 => c.volume),
        apply_ite (fun c : Channel1 => c.volEnv)]
  · by_cases hp2 : a.div % 2 = 0 <;> by_cases hp4 : a.div % 4 = 0 <;>
      by_cases hp8 : a.div % 8 = 0 <;>
      rcases hop : a.ch1.sweep.op with _ | _ <;>
      simp [Apu.incDiv, hapu, hand3, hand7, hp2, hp4, hp8, hop,
        apply_ite (fun x : Apu => x.div)]

/-- Witness for C7 at the concrete phase-1 APU and the divider-edge
timer: the strobe equation, and the phase-1 no-advance facts. -/
theorem C7_frame_sequencer_witness :
    divEdgeTimer.tick.2.apuIncDiv = (((divEdgeTimer.divider + 4) % 65536 == 32)
      || divEdgeTimer.apuIncDiv) ∧
    phase1Apu.incDiv.ch1.waveDutyLenTimer.lenTimer =
      phase1Apu.ch1.waveDutyLenTimer.lenTimer ∧
    phase1Apu.incDiv.ch1.wavelenCtrl.wavelen = phase1Apu.ch1.wavelenCtrl.wavelen ∧
    phase1Apu.incDiv.ch1.volume = phase1Apu.ch1.volume ∧
    phase0Apu.incDiv.ch1.volume = phase0Apu.ch1.volume - 1 := by
  have h1 := C7_frame_sequencer divEdgeTimer phase1Apu rfl
  have h0 := C7_frame_sequencer divEdgeTimer phase0Apu rfl
  exact ⟨h1.1, (h1.2.1 (by decide)).1, h1.2.2.1 (by decide), (h1.2.2.2.1 (by decide)).1,
    h0.2.2.2.2.1 (by decide) rfl rfl (by decide)⟩

set_option maxHeartbeats 4000000 in
/-- C1 (the code side): `Cpu::ei` raises IME at once, for every state (the
`enable_ime` deferral field exists but is never set by any instruction),
and `Cpu::di` clears IME at once; as a consequence, at the concrete
failing state — `Continue`, VBlank requested and enabled — the step
immediately following EI already dispatches the interrupt (PC becomes the
VBlank vector with IME cleared) instead of seeing IME still clear at its
interrupt check. -/
theorem C1_ei_sets_ime_immediately :
    (∀ (c : Cpu) (opcode : Nat), (c.ei opcode).registers.ime = true) ∧
    (∀ (c : Cpu) (opcode : Nat), (c.di opcode).registers.ime = false) ∧
    (testCpu.registers.ime = false) ∧
    ((testCpu.ei 0xFB).registers.ime = true) ∧
    ((match (testCpu.ei 0xFB).nextInstructionPrelude with
      | .ret c => c.registers.pc == 0x40 && c.registers.ime == false
      | .fetch _ => false) = true) := by
  refine ⟨fun c op => rfl, fun c op => rfl, rfl, rfl, ?_⟩
  rfl

/-- Witness for C1: the universal EI/DI parts applied at the concrete
state. -/
theorem C1_ei_sets_ime_immediately_witness :
    (testCpu.ei 0xFB).registers.ime = true ∧ (testCpu.di 0xF3).registers.ime = false :=
  ⟨C1_ei_sets_ime_immediately.1 testCpu 0xFB, C1_ei_sets_ime_immediately.2.1 testCpu 0xF3⟩

set_option maxHeartbeats 1600000 in
/-- A write decoded above `0xFE00` never lands in WRAM. -/
theorem writeByteNoConflict_wram_of_ge (m : Mmu) (a v : Nat) (h : 0xFE00 ≤ a) :
    (m.writeByteNoConflict a v).wram = m.wram := by
  unfold Mmu.writeByteNoConflict
  simp only [apply_ite Mmu.wram]
  rw [if_neg (by omega), if_neg (by omega), if_neg (by omega), if_neg (by omega),
    if_neg (by omega)]
  split_ifs <;> rfl

/-- A write decoded into `C000..DFFF` stores into WRAM at the offset. -/
theorem writeByteNoConflict_wram_region (m : Mmu) (a v : Nat)
    (h1 : 0xC000 ≤ a) (h2 : a ≤ 0xDFFF) :
    (m.writeByteNoConflict a v).wram = m.wram.set (a - 0xC000) v := by
  unfold Mmu.writeByteNoConflict
  rw [if_neg (by omega), if_neg (by omega), if_neg (by omega), if_pos (by omega)]

set_option maxHeartbeats 1600000 in
/-- The bus tick never touches WRAM (the OAM-DMA copier writes only into
the OAM region). -/
theorem mmu_tick_wram (m : Mmu) : m.tick.wram = m.wram := by
  unfold Mmu.tick
  rcases hio : m.io.tick with ⟨io, ioTick⟩
  rcases hppu : m.ppu.tick with ⟨ppu, pints, dreq⟩
  cases dreq <;> rcases hdma : m.dma with _ | ⟨sv, off, ba⟩ <;>
    simp only [hio, hppu, hdma, apply_ite Mmu.dma, apply_ite Mmu.wram, ite_self] <;>
    first
      | rfl
      | (rw [writeByteNoConflict_wram_of_ge _ _ _ (by omega)]
         try simp [apply_ite Mmu.wram])

/-- Clearing an interrupt's IF bit leaves that bit clear, whatever the
other bits are. -/
theorem resetInterrupt_clears (m : Mmu) (i : Interrupt) :
    (m.resetInterrupt i).interruptFlags &&& i.bits = 0 := by
  show (m.interruptFlags &&& (0b11111 ^^^ i.bits)) &&& i.bits = 0
  rw [Nat.and_assoc]
  cases i <;>
    simp [Interrupt.bits, show (30 &&& 1 : Nat) = 0 from by decide,
      show (29 &&& 2 : Nat) = 0 from by decide, show (27 &&& 4 : Nat) = 0 from by decide,
      show (23 &&& 8 : Nat) = 0 from by decide, show (15 &&& 16 : Nat) = 0 from by decide]

/-- `Mmu::next_interrupt` returns a pending interrupt and only when every
higher-priority interrupt is idle. -/
theorem nextInterrupt_priority (m : Mmu) (i : Interrupt)
    (h : m.nextInterrupt = some i) :
    m.interrupts &&& i.bits ≠ 0 ∧
      ∀ j : Interrupt, j.priorityIndex < i.priorityIndex → m.interrupts &&& j.bits = 0 := by
  simp only [Mmu.nextInterrupt, Interrupt.bits, bne_iff_ne, ne_eq, ite_not] at h
  by_cases h1 : m.interrupts &&& 1 = 0
  case neg =>
    rw [if_neg h1] at h
    injection h with h; subst h
    refine ⟨by simpa [Interrupt.bits] using h1, fun j hj => ?_⟩
    cases j <;> simp only [Interrupt.priorityIndex, Interrupt.bits] at hj ⊢ <;>
      exact absurd hj (by decide)
  rw [if_pos h1] at h
  by_cases h2 : m.interrupts &&& 2 = 0
  case neg =>
    rw [if_neg h2] at h
    injection h with h; subst h
    refine ⟨by simpa [Interrupt.bits] using h2, fun j hj => ?_⟩
    cases j <;> simp only [Interrupt.priorityIndex, Interrupt.bits] at hj ⊢ <;>
      first | exact h1 | exact absurd hj (by decide)
  rw [if_pos h2] at h
  by_cases h3 : m.interrupts &&& 4 = 0
  case neg =>
    rw [if_neg h3] at h
    injection h with h; subst h
    refine ⟨by simpa [Interrupt.bits] using h3, fun j hj => ?_⟩
    cases j <;> simp only [Interrupt.priorityIndex, Interrupt.bits] at hj ⊢ <;>
      first | exact h1 | exact h2 | exact absurd hj (by decide)
  rw [if_pos h3] at h
  by_cases h4 : m.interrupts &&& 8 = 0
  case neg =>
    rw [if_neg h4] at h
    injection h with h; subst h
    refine ⟨by simpa [Interrupt.bits] using h4, fun j hj => ?_⟩
    cases j <;> simp only [Interrupt.priorityIndex, Interrupt.bits] at hj ⊢ <;>
      first | exact h1 | exact h2 | exact h3 | exact absurd hj (by decide)
  rw [if_pos h4] at h
  by_cases h5 : m.interrupts &&& 16 = 0
  case neg =>
    rw [if_neg h5] at h
    injection h with h; subst h
    refine ⟨by simpa [Interrupt.bits] using h5, fun j hj => ?_⟩
    cases j <;> simp only [Interrupt.priorityIndex, Interrupt.bits] at hj ⊢ <;>
      first | exact h1 | exact h2 | exact h3 | exact h4 | exact absurd hj (by decide)
  rw [if_pos h5] at h
  exact absurd h (by simp)

set_option maxHeartbeats 1600000 in
/-- C4 (amended): when IME is set and an enabled interrupt is pending at
the start of `step()` (`Continue` state), the CPU services the
highest-priority pending interrupt of the fixed order VBlank `0x40`,
LCD-Stat `0x48`, Timer `0x50`, Serial `0x58`, Joypad `0x60`: it pushes PC
onto the stack (high byte at SP-1, low byte at SP-2, for SP inside WRAM),
sets PC to the vector, clears IME and the serviced IF bit — and the
dispatch charges 2 bus ticks (8 master cycles, one per stack-push write),
not 5. -/
theorem C4_interrupt_dispatch (c : Cpu) (i : Interrupt)
    (hstate : c.executionState = .Continue)
    (hime : c.registers.ime = true)
    (hnext : c.mmu.nextInterrupt = some i)
    (hsp1 : 0xC002 ≤ c.registers.sp) (hsp2 : c.registers.sp ≤ 0xDFFF)
    (hwl : c.mmu.wram.length = 8192) :
    c.nextInstructionPrelude = .ret (c.serviceInterrupt i) ∧
    (c.serviceInterrupt i).registers.pc = i.address ∧
    (c.serviceInterrupt i).registers.ime = false ∧
    (c.serviceInterrupt i).mmu.interruptFlags &&& i.bits = 0 ∧
    (c.serviceInterrupt i).cycles = c.cycles + 2 * 4 ∧
    (c.serviceInterrupt i).registers.sp = (c.registers.sp + 0x10000 - 2) % 0x10000 ∧
    (c.serviceInterrupt i).mmu.wram.getD (c.registers.sp - 2 - 0xC000) 0
        = c.registers.pc &&& 0xFF ∧
    (c.serviceInterrupt i).mmu.wram.getD (c.registers.sp - 1 - 0xC000) 0
        = (c.registers.pc >>> 8) &&& 0xFF ∧
    c.mmu.interrupts &&& i.bits ≠ 0 ∧
    (∀ j : Interrupt, j.priorityIndex < i.priorityIndex → c.mmu.interrupts &&& j.bits = 0) := by
  have hpr := nextInterrupt_priority c.mmu i hnext
  have hsp' : (c.registers.sp + 0x10000 - 2) % 0x10000 = c.registers.sp - 2 := by omega
  have hu16 : u16 (c.registers.sp - 2 + 1) = c.registers.sp - 1 := by
    unfold u16
    omega
  have hprel : c.nextInstructionPrelude = .ret (c.serviceInterrupt i) := by
    unfold Cpu.nextInstructionPrelude
    rw [hstate]
    unfold Cpu.interruptCheckPhase
    rw [hime, if_pos rfl, hnext]
  have hwram : (c.serviceInterrupt i).mmu.wram =
      (c.mmu.wram.set (c.registers.sp - 1 - 0xC000) ((c.registers.pc >>> 8) &&& 0xFF)).set
        (c.registers.sp - 2 - 0xC000) (c.registers.pc &&& 0xFF) := by
    simp only [Cpu.serviceInterrupt, Cpu.pushStack, Cpu.writeDbyte, Cpu.writeByte,
      Cpu.tick, Mmu.writeByte, Mmu.resetInterrupt]
    rw [hsp', hu16]
    rw [writeByteNoConflict_wram_region _ _ _ (by omega) (by omega), mmu_tick_wram,
      writeByteNoConflict_wram_region _ _ _ (by omega) (by omega), mmu_tick_wram]
  have hcyc : (c.serviceInterrupt i).cycles = c.cycles + 2 * 4 := by
    show c.cycles + 4 + 4 = c.cycles + 2 * 4
    omega
  have hlen1 : (c.mmu.wram.set (c.registers.sp - 1 - 0xC000)
      ((c.registers.pc >>> 8) &&& 0xFF)).length = 8192 := by
    rw [List.length_set, hwl]
  refine ⟨hprel, rfl, rfl, resetInterrupt_clears _ i, hcyc, rfl, ?_, ?_, hpr.1, hpr.2⟩
  · rw [hwram, getD_set_self _ _ _ _ (by rw [hlen1]; omega)]
  · rw [hwram, getD_set_ne _ _ _ _ _ (by omega),
      getD_set_self _ _ _ _ (by rw [hwl]; omega)]


set_option maxHeartbeats 4000000 in
/-- C4 (counterexample to the claim as stated): at the concrete
dispatch-ready state, servicing the pending VBlank interrupt charges 8
master cycles — 2 bus ticks — not the 5 bus ticks (20 cycles) the claim
states. -/
theorem C4_dispatch_ticks_counterexample :
    (match testCpuIme.nextInstructionPrelude with
     | .ret c' => c'.cycles
     | .fetch _ => 0) = 2 * 4 ∧ (2 * 4 : Nat) ≠ 5 * 4 := by
  refine ⟨rfl, by decide⟩

set_option maxHeartbeats 4000000 in
/-- Witness for C4 at the concrete dispatch-ready state with a full-size
WRAM. -/
theorem C4_interrupt_dispatch_witness :
    testCpuDispatch.nextInstructionPrelude =
      .ret (testCpuDispatch.serviceInterrupt .VBlank) ∧
    (testCpuDispatch.serviceInterrupt .VBlank).registers.pc = Interrupt.VBlank.address ∧
    (testCpuDispatch.serviceInterrupt .VBlank).cycles = testCpuDispatch.cycles + 2 * 4 := by
  have hwl : testCpuDispatch.mmu.wram.length = 8192 := by
    show (List.replicate 8192 0).length = 8192
    rw [List.length_replicate]
  have h := C4_interrupt_dispatch testCpuDispatch .VBlank rfl rfl rfl
    (by decide) (by decide) hwl
  exact ⟨h.1, h.2.1, h.2.2.2.2.1⟩

end Oxidegb
